import Mathlib

/-!
Verification development for the zapflow-integration repository.

Shallow embedding of the conversation engine, the session store
(durable database + cache), and the webhook idempotency guard, translated
from `src/services/conversation.service.ts`, `src/services/redis.service.ts`
and the webhook controller.

Conventions of the embedding:
* JavaScript objects are modelled by the inductive `JVal` / association
  lists (`JObj`); `obj[k] = v` is `jset`, the spread `{...a, ...b}` is
  `jmerge`, `o?.k` is `jget`.
* JavaScript numbers are modelled by `Rat` (the arithmetic performed by the
  code on the inputs of the claims is exact).
* The current date (`new Date()`) is modelled by a day count since the Unix
  epoch passed in the environment; `toISOString().split('T')[0]` is
  `formatISODate` (proleptic Gregorian civil-from-days conversion).
* External collaborators (partner API, payment backend, messaging gateway)
  are functions in an `Env` record; their invocations are recorded in an
  effect trace, newest first.
-/

namespace ZapFlow

/-- JSON-like values stored in a session `data` bag. -/
inductive JVal where
  | vStr (s : String)
  | vNum (q : Rat)
  | vBool (b : Bool)
  | vArr (xs : List JVal)
  | vObj (o : List (String × JVal))

/-- A JavaScript object: an association list of fields. -/
abbrev JObj := List (String × JVal)

/-- Field lookup, `o.k` / `o?.[k]`. -/
def jget : JObj → String → Option JVal
  | [], _ => none
  | (k', v') :: rest, k => if k' = k then some v' else jget rest k

/-- Field assignment `o[k] = v`: replaces an existing entry in place,
appends otherwise (JavaScript property-update semantics). -/
def jset : JObj → String → JVal → JObj
  | [], k, v => [(k, v)]
  | (k', v') :: rest, k, v =>
      if k' = k then (k, v) :: rest else (k', v') :: jset rest k v

/-- Object spread `{...old, ...new}`: shallow merge, later keys override. -/
def jmerge (old new : JObj) : JObj :=
  new.foldl (fun acc kv => jset acc kv.1 kv.2) old

/-- Lookup returning the string payload, when the field is a string. -/
def jgetStr (o : JObj) (k : String) : Option String :=
  match jget o k with
  | some (JVal.vStr s) => some s
  | _ => none

/-- Lookup returning the numeric payload, when the field is a number. -/
def jgetNum (o : JObj) (k : String) : Option Rat :=
  match jget o k with
  | some (JVal.vNum q) => some q
  | _ => none

/-- Lookup returning the object payload, when the field is an object. -/
def jgetObj (o : JObj) (k : String) : Option JObj :=
  match jget o k with
  | some (JVal.vObj o') => some o'
  | _ => none

/-- The keys of an object. -/
def jkeys (o : JObj) : List String := o.map Prod.fst

/-! ### String helpers mirroring the JavaScript primitives -/

/-- `s.replace(/\D/g, '')`: keep only decimal digits. -/
def stripNonDigits (s : String) : String :=
  ⟨s.toList.filter Char.isDigit⟩

/-- Whether the pattern is an initial segment of the character list. -/
def leadMatch : List Char → List Char → Bool
  | [], _ => true
  | _ :: _, [] => false
  | a :: ps, b :: ss => a = b && leadMatch ps ss

/-- Whether the pattern occurs somewhere in the character list. -/
def subSearch (p : List Char) : List Char → Bool
  | [] => leadMatch p []
  | c :: rest => leadMatch p (c :: rest) || subSearch p rest

/-- `s.includes(pat)`. -/
def jsIncludes (s pat : String) : Bool :=
  subSearch pat.toList s.toList

/-- `parseInt(s, 10)`: optional sign then a maximal run of leading digits;
`none` models `NaN`. -/
def parseIntJS (s : String) : Option Int :=
  let chars := s.toList.dropWhile (fun c => c = ' ')
  let core : List Char → Option Nat := fun cs =>
    let digits := cs.takeWhile Char.isDigit
    if digits.isEmpty then none
    else some (digits.foldl (fun acc c => acc * 10 + (c.toNat - 48)) 0)
  match chars with
  | '-' :: rest => (core rest).map (fun n => -(n : Int))
  | '+' :: rest => (core rest).map (fun n => (n : Int))
  | cs => (core cs).map (fun n => (n : Int))

/-- JavaScript `x || d` on an optional number: `0` and absence are falsy. -/
def jsOrNum (v : Option Rat) (d : Rat) : Rat :=
  match v with
  | some q => if q = 0 then d else q
  | none => d

/-- `s.trim()`: strip leading and trailing whitespace. -/
def jsTrim (s : String) : String :=
  ⟨((s.toList.dropWhile Char.isWhitespace).reverse.dropWhile Char.isWhitespace).reverse⟩

/-- `s.toLowerCase()`. -/
def jsToLower (s : String) : String :=
  ⟨s.toList.map Char.toLower⟩

/-- Worker for `splitComma`. -/
def splitCommaAux : List Char → List Char → List String
  | [], acc => [⟨acc.reverse⟩]
  | c :: rest, acc =>
      if c = ',' then (⟨acc.reverse⟩ : String) :: splitCommaAux rest []
      else splitCommaAux rest (c :: acc)

/-- `s.split(',')`. -/
def splitComma (s : String) : List String :=
  splitCommaAux s.toList []

/-! Rational arithmetic.  The kernel cannot unfold the primitive `Rat`
operations, so the model computes with the explicit cross-multiplication
forms below; the bridge lemmas `ratAdd_eq`, `ratMul_eq`, `ratDiv_eq`,
`ratLe_iff` and `ratFloor_eq` prove them equal to the standard `Rat`
operations. -/

/-- Addition of rationals by cross multiplication. -/
def ratAdd (a b : Rat) : Rat :=
  mkRat (a.num * b.den + b.num * a.den) (a.den * b.den)

/-- Multiplication of rationals. -/
def ratMul (a b : Rat) : Rat :=
  mkRat (a.num * b.num) (a.den * b.den)

/-- Division of rationals. -/
def ratDiv (a b : Rat) : Rat :=
  if 0 ≤ b.num then mkRat (a.num * b.den) (a.den * b.num.toNat)
  else mkRat (-(a.num * b.den)) (a.den * (-b.num).toNat)

/-- Order on rationals by cross multiplication. -/
def ratLe (a b : Rat) : Bool :=
  decide (a.num * b.den ≤ b.num * a.den)

/-- Floor of a rational. -/
def ratFloor (q : Rat) : Int :=
  q.num / q.den

/-! ### CPF validation (`isValidCPF`, conversation.service.ts lines 983-1007) -/

/-- The regex `/^(\d)\1{10}$/` on the digit list: eleven equal digits. -/
def allSameEleven (d : List Nat) : Bool :=
  d.length = 11 &&
    (match d with
     | [] => false
     | a :: rest => rest.all (fun b => b = a))

/-- First-checksum weighted sum: digits 0..8 with weights 10..2. -/
def cpfSum1 (d : List Nat) : Nat :=
  ((List.range 9).map (fun i => d.getD i 0 * (10 - i))).sum

/-- Second-checksum weighted sum: digits 0..9 with weights 11..2. -/
def cpfSum2 (d : List Nat) : Nat :=
  ((List.range 10).map (fun i => d.getD i 0 * (11 - i))).sum

/-- First check digit: remainder `< 2` gives `0`, else `11 - remainder`. -/
def cpfDigit1 (d : List Nat) : Nat :=
  let r := cpfSum1 d % 11
  if r < 2 then 0 else 11 - r

/-- Second check digit, same rule over the first ten digits. -/
def cpfDigit2 (d : List Nat) : Nat :=
  let r := cpfSum2 d % 11
  if r < 2 then 0 else 11 - r

/-- `isValidCPF` on the list of the eleven digit values. -/
def isValidCPFDigits (d : List Nat) : Bool :=
  if allSameEleven d then false
  else cpfDigit1 d = d.getD 9 0 && cpfDigit2 d = d.getD 10 0

/-- `parseInt(cpf.charAt(i))` for every position of a digit string. -/
def cpfDigitsOf (s : String) : List Nat :=
  s.toList.map (fun c => c.toNat - 48)

/-- `isValidCPF` on an 11-digit string. -/
def isValidCPF (s : String) : Bool :=
  isValidCPFDigits (cpfDigitsOf s)

/-! ### Dates

`new Date()` is modelled as a day count since 1970-01-01;
`dataVencimento.setDate(dataVencimento.getDate() + 7)` adds 7 to that count;
`toISOString().split('T')[0]` renders the count as `YYYY-MM-DD` through the
standard civil-from-days conversion (proleptic Gregorian). -/

/-- Convert a day count since the Unix epoch to `(year, month, day)`. -/
def civilFromDays (z : Nat) : Nat × Nat × Nat :=
  let w := z + 719468
  let era := w / 146097
  let doe := w % 146097
  let yoe := (doe - doe / 1460 + doe / 36524 - doe / 146096) / 365
  let y := yoe + era * 400
  let doy := doe - (365 * yoe + yoe / 4 - yoe / 100)
  let mp := (5 * doy + 2) / 153
  let d := doy - (153 * mp + 2) / 5 + 1
  let m := if mp < 10 then mp + 3 else mp - 9
  if m ≤ 2 then (y + 1, m, d) else (y, m, d)

/-- Zero-padded two-digit rendering of a month or day number. -/
def pad2 (n : Nat) : String :=
  if n < 10 then "0" ++ toString n else toString n

/-- `YYYY-MM-DD` rendering of a day count (the date part of `toISOString`). -/
def formatISODate (z : Nat) : String :=
  let c := civilFromDays z
  toString c.1 ++ "-" ++ pad2 c.2.1 ++ "-" ++ pad2 c.2.2

/-- `calcularVencimentoPadrao` (conversation.service.ts lines 2418-2422):
the current date plus 7 days, formatted `YYYY-MM-DD`. -/
def calcularVencimentoPadrao (today : Nat) : String :=
  formatISODate (today + 7)

/-! ### Idempotency/concurrency guard (webhook controller + redis.service)

The Redis store backing the guard is a set of present keys plus an
availability flag.  TTLs are not modelled: every claim is about events
within the relevant TTL window. -/

/-- The cache store backing the guard keys. -/
structure GuardStore where
  available : Bool
  keys : List String
  deriving DecidableEq

/-- `RedisService.setIfNotExists` (redis.service.ts lines 184-199): returns
`false` when the store is unavailable, when the key already exists, or on
error; `true` exactly when the key was freshly set. -/
def setIfNotExists (key : String) (g : GuardStore) : Bool × GuardStore :=
  if g.available = false then (false, g)
  else if g.keys.contains key then (false, g)
  else (true, { g with keys := key :: g.keys })

/-- A `ZApiWebhookPayload` restricted to the fields the guard and the engine
read.  `textMsg` is `text?.message`, `listRowId` is
`listResponseMessage?.selectedRowId`, `buttonId` is
`buttonResponseMessage?.buttonId`. -/
structure Payload where
  phone : String
  ptype : String
  message : Option String
  textMsg : Option String
  listRowId : Option String
  buttonId : Option String
  fromMe : Bool
  messageId : Option String
  deriving DecidableEq

/-- JavaScript `a || b` for an optional string: absence and `""` are falsy. -/
def jsOrStr (v : Option String) (d : String) : String :=
  match v with
  | some s => if s = "" then d else s
  | none => d

/-- The debounce content expression of the controller:
`message || text?.message || listResponseMessage?.selectedRowId ||
buttonResponseMessage?.buttonId || ''`. -/
def payloadContent (p : Payload) : String :=
  jsOrStr p.message (jsOrStr p.textMsg (jsOrStr p.listRowId (jsOrStr p.buttonId "")))

/-- The user-message test of controller line 95: text with a body, a
callback, a list reply, or a button reply. -/
def isProcessableType (p : Payload) : Bool :=
  (p.ptype = "text" && (jsOrStr p.message "" ≠ "" || p.textMsg.isSome))
    || p.ptype = "ReceivedCallback" || p.listRowId.isSome || p.buttonId.isSome

/-- Outcome of one webhook delivery; `processed` means the Conversation
Engine (`processIncomingMessage`) was invoked. -/
inductive WebhookOutcome where
  | invalidPayload
  | ignoredFromMe
  | deduped
  | debounced
  | lockBusy
  | skippedType
  | processed
  deriving DecidableEq

/-- Lock phase of `WebhookController.handleWebhook` (lines 94-122): per-phone
mutual exclusion, lock released after processing. -/
def guardLockPhase (p : Payload) (g : GuardStore) : WebhookOutcome × GuardStore :=
  if isProcessableType p then
    let lockKey := "zapi:lock:" ++ p.phone
    let r := setIfNotExists lockKey g
    if r.1 = false then (WebhookOutcome.lockBusy, r.2)
    else (WebhookOutcome.processed, { r.2 with keys := r.2.keys.erase lockKey })
  else (WebhookOutcome.skippedType, g)

/-- Debounce phase of `handleWebhook` (lines 78-92): the base64 encoding of
the signature is injective and is modelled by the raw signature. -/
def guardDebouncePhase (p : Payload) (g : GuardStore) : WebhookOutcome × GuardStore :=
  let sig := p.phone ++ "|" ++ p.ptype ++ "|" ++ payloadContent p
  let r := setIfNotExists ("zapi:debounce:" ++ sig) g
  if r.1 = false then (WebhookOutcome.debounced, r.2)
  else guardLockPhase p r.2

/-- `WebhookController.handleWebhook` (lines 44-137): payload validation,
self-echo filter, delivery idempotency, content debounce, per-phone lock. -/
def handleWebhook (p : Payload) (g : GuardStore) : WebhookOutcome × GuardStore :=
  if p.phone = "" ∨ p.ptype = "" then (WebhookOutcome.invalidPayload, g)
  else if p.fromMe then (WebhookOutcome.ignoredFromMe, g)
  else
    match p.messageId with
    | some mid =>
        if mid = "" then guardDebouncePhase p g
        else
          let r := setIfNotExists ("zapi:msg:" ++ mid) g
          if r.1 = false then (WebhookOutcome.deduped, r.2)
          else guardDebouncePhase p r.2
    | none => guardDebouncePhase p g

/-! ### Conversation engine data model -/

/-- One row of a structured option list. -/
structure ConvOption where
  id : String
  title : String
  description : String
  deriving DecidableEq

/-- The `optionList` payload of a `ConversationStep`. -/
structure ConvOptionList where
  title : String
  buttonLabel : String
  options : List ConvOption
  deriving DecidableEq

/-- `ConversationStep`: the engine output for one turn.  The modelled
handlers only ever populate the `optionList` presentation variant; the
`buttons`/`list` variants of the TypeScript type are never produced by them
and are omitted. -/
structure ConvStep where
  step : String
  message : String
  optionList : Option ConvOptionList := none
  deriving DecidableEq

/-- `SessionContext` restricted to one phone: the fields the engine reads.
`createdAt`/`updatedAt` are diagnostic only and omitted. -/
structure SessionCtx where
  currentStep : String
  lastMessage : String
  data : Option JObj

/-- One `zapflow_sessions` row for the phone (`context` is the JSONB bag). -/
structure DbRow where
  currentStep : String
  lastMessage : String
  context : Option JObj

/-- The two-level session store for one phone: durable database row plus
cache entry, with availability flags (`prisma` handle usable, and
`redisService.isAvailable()`). -/
structure Store where
  dbAvailable : Bool
  db : Option DbRow
  cacheAvailable : Bool
  cache : Option SessionCtx

/-- Side effects recorded during one turn, newest first. -/
inductive Eff where
  | logIncoming (msg : String)
  | logOutgoing (msg : String)
  | sessionUpdate (step : String)
  | send (msg : String)
  | turmaFetch (code : String)
  | cpfFetch (cpf : String)
  | itensFetch
  | configFetch
  | carneReq (valor : Rat) (parcelas : Int) (venc : String)
  | boletoReq (valor : Rat)
  deriving DecidableEq

/-- Store plus the effect trace of the current processing. -/
structure TurnState where
  store : Store
  trace : List Eff

/-- An `Aluno` as returned by `mettaApiService.checkCpfExists`. -/
structure Aluno where
  id : Rat
  nomeCompleto : String
  turmaId : String
  deriving DecidableEq

/-- A `Turma` as returned by `mettaApiService.checkTurmaExists`. -/
structure Turma where
  id : Rat
  nomeTurma : String
  universidade : String
  curso : String
  deriving DecidableEq

/-- A catalog item (`ItemCustomizado`): name and monetary value. -/
structure Item where
  nome : String
  valor : Option Rat
  deriving DecidableEq

/-- The cohort configuration record, restricted to the fields the modelled
handlers read. -/
structure ConfigTurma where
  id : Rat
  carneMaxParcelas : Option Rat
  deriving DecidableEq

/-- One installment returned by the payment backend. -/
structure Parcela where
  vencimento : String
  valor : Rat
  link : String
  barcode : String
  deriving DecidableEq

/-- Response of `paymentIntegrationService.gerarCarne`. -/
structure CarneResp where
  success : Bool
  parcelas : List Parcela
  errMsg : String
  deriving DecidableEq

/-- Response of `paymentIntegrationService.gerarBoleto`. -/
structure BoletoResp where
  success : Bool
  link : String
  barcode : String
  pixQrcode : Bool
  errMsg : String
  deriving DecidableEq

/-- The external collaborators of one turn.  The item/configuration lookups
take cohort identifiers in the source; every claim fixes a single cohort, so
they are modelled as the responses for that cohort.  `today` is the day
count of `new Date()`. -/
structure Env where
  checkTurmaExists : String → Option Turma
  checkCpfExists : String → Option Aluno
  itensApi : List Item
  itensDb : List Item
  configTurma : Option ConfigTurma
  carne : CarneResp
  boleto : BoletoResp
  sendOk : Bool
  today : Nat

/-- JavaScript truthiness of a stored value. -/
def jtruthy : JVal → Bool
  | JVal.vStr s => s ≠ ""
  | JVal.vNum q => q ≠ 0
  | JVal.vBool b => b
  | JVal.vArr _ => true
  | JVal.vObj _ => true

/-! ### Session store operations -/

/-- Mirror a session into the cache when the cache is available
(`redisService.setSession`). -/
def cachePut (ctx : SessionCtx) (ts : TurnState) : TurnState :=
  if ts.store.cacheAvailable then
    { ts with store := { ts.store with cache := some ctx } }
  else ts

/-- `getOrCreateSession` (conversation.service.ts lines 205-290):
cache-first read; durable read with default-row creation on miss; in-memory
fallback session when the database is unavailable.  Always mirrors the
result into the cache. -/
def getOrCreateSession (ts : TurnState) : SessionCtx × TurnState :=
  match ts.store.cacheAvailable, ts.store.cache with
  | true, some s => (s, ts)
  | _, _ =>
      if ts.store.dbAvailable then
        match ts.store.db with
        | some row =>
            let ctx : SessionCtx := ⟨row.currentStep, row.lastMessage, row.context⟩
            (ctx, cachePut ctx ts)
        | none =>
            let ctx : SessionCtx := ⟨"welcome", "", none⟩
            (ctx, cachePut ctx
              { ts with store := { ts.store with db := some ⟨"welcome", "", none⟩ } })
      else
        let ctx : SessionCtx := ⟨"welcome", "", none⟩
        (ctx, cachePut ctx ts)

/-- `updateSession` (conversation.service.ts lines 2301-2365).  The durable
upsert replaces `current_step`, `last_message` and the whole `context`
column with its arguments; the cache is then invalidated, durable state is
re-read, and `data` is merged on top of the re-read data for the new cache
entry. -/
def updateSession (step msg : String) (data : Option JObj) (ts : TurnState) : TurnState :=
  let ts0 : TurnState := { ts with trace := Eff.sessionUpdate step :: ts.trace }
  let ts1 : TurnState :=
    if ts0.store.dbAvailable then
      { ts0 with store := { ts0.store with db := some ⟨step, msg, data⟩ } }
    else ts0
  if ts1.store.cacheAvailable then
    let ts2 : TurnState := { ts1 with store := { ts1.store with cache := none } }
    let er := getOrCreateSession ts2
    let newData : Option JObj :=
      match data with
      | some d => some (jmerge ((er.1.data).getD []) d)
      | none => er.1.data
    { er.2 with store := { er.2.store with cache := some ⟨step, msg, newData⟩ } }
  else ts1

/-- `updateClienteData` (lines 180-204): read the session, set one key of
`clienteData`, and write back the full `data` bag through `updateSession`. -/
def updateClienteData (k : String) (v : JVal) (ts : TurnState) : TurnState :=
  let sr := getOrCreateSession ts
  let session := sr.1
  let clienteData :=
    (session.data.bind (fun dobj => jgetObj dobj "clienteData")).getD []
  let clienteData2 := jset clienteData k v
  updateSession session.currentStep session.lastMessage
    (some (jset (session.data.getD []) "clienteData" (JVal.vObj clienteData2))) sr.2

/-- `updatePackageData` (lines 1947-1956): same pattern for `pacoteData`. -/
def updatePackageData (k : String) (v : JVal) (ts : TurnState) : TurnState :=
  let sr := getOrCreateSession ts
  let session := sr.1
  let pacoteData :=
    (session.data.bind (fun dobj => jgetObj dobj "pacoteData")).getD []
  let pacoteData2 := jset pacoteData k v
  updateSession session.currentStep session.lastMessage
    (some (jset (session.data.getD []) "pacoteData" (JVal.vObj pacoteData2))) sr.2

/-- `logMessage` with direction `incoming`: one insert when the database is
available, silently skipped otherwise. -/
def logIncomingMsg (msg : String) (ts : TurnState) : TurnState :=
  if ts.store.dbAvailable then
    { ts with trace := Eff.logIncoming msg :: ts.trace }
  else ts

/-- `logMessage` with direction `outgoing`. -/
def logOutgoingMsg (msg : String) (ts : TurnState) : TurnState :=
  if ts.store.dbAvailable then
    { ts with trace := Eff.logOutgoing msg :: ts.trace }
  else ts

/-- `sendResponse` (lines 2233-2296): one gateway send; the outgoing log is
written only when the send succeeded. -/
def sendResponse (env : Env) (r : ConvStep) (ts : TurnState) : TurnState :=
  let ts1 : TurnState := { ts with trace := Eff.send r.message :: ts.trace }
  if env.sendOk then logOutgoingMsg r.message ts1 else ts1

/-! ### Step handlers -/

/-- The 7-option main menu (`getMainMenuOptions`, lines 1961-2003). -/
def getMainMenuOptions : ConvOptionList :=
  { title := "Opções disponíveis"
    buttonLabel := "Abrir lista de opções"
    options :=
      [ ⟨"1", "Assinar meu contrato", "Assine aqui seu contrato"⟩
      , ⟨"2", "Pagamentos", "Verificar pagamentos"⟩
      , ⟨"3", "Edição de Fotos ou Álbum", "Solicitar revisões, prazos ou acompanhar andamento."⟩
      , ⟨"4", "Administrativo", "Questões internas ou documentos administrativos."⟩
      , ⟨"5", "Solicitar um Orçamento", "Monte seu pacote personalizado com nossa equipe."⟩
      , ⟨"6", "Faço parte da comissão (Agendar reunião)", "Agendar uma reunião com a equipe responsável."⟩
      , ⟨"7", "Falar com um atendente", "Conversar diretamente com nossa equipe de suporte."⟩ ] }

/-- `getWelcomeStep` (lines 440-446). -/
def getWelcomeStep : ConvStep :=
  { step := "main_menu"
    message := "Bem-vindo(a) ao Metta Studio!\nAqui, cada clique é pensado para eternizar emoções e transformar momentos em arte. 💫"
    optionList := some getMainMenuOptions }

/-- `getSupportStep` (lines 2222-2228): the human-support handoff response;
its target step is `main_menu`. -/
def getSupportStep : ConvStep :=
  { step := "main_menu"
    message := "Um atendente irá entrar em contato em breve para dar continuidade ao seu atendimento. Obrigado pelo contato!"
    optionList := some getMainMenuOptions }

/-- `getBillingStep` (lines 2008-2013). -/
def getBillingStep : ConvStep :=
  { step := "billing_cpf"
    message := "Para consultar suas cobranças e pagamentos, por favor informe seu CPF (apenas números)." }

/-- `handleMainMenu` (lines 451-489): strict equality on the trimmed input
for options 1-6 and their command ids, then the free-text attendant
fallback (`includes`), then the null transition. -/
def handleMainMenu (message : String) : Option ConvStep :=
  let m := jsTrim message
  if m = "1" ∨ m = "contract" then
    some { step := "contract_cpf"
           message := "Para darmos continuidade, por favor informe o seu CPF. Digite apenas números, sem pontos nem traços.\n👉 Exemplo: 00516400320" }
  else if m = "2" ∨ m = "billing" then
    some { step := "billing_cpf"
           message := "Para consultar suas cobranças e pagamentos, por favor informe seu CPF (apenas números)." }
  else if m = "3" ∨ m = "editing" then some getSupportStep
  else if m = "4" ∨ m = "admin" then some getSupportStep
  else if m = "5" ∨ m = "quote" then some getSupportStep
  else if m = "6" ∨ m = "meeting" then some getSupportStep
  else if jsIncludes message "atendente" || jsIncludes message "suporte"
      || jsIncludes message "7" || message = "support" then
    some { step := "support"
           message := "Você será direcionado para nossa equipe de atendimento. Aguarde um momento..." }
  else none

/-- `handleExistingClientMenu` (lines 639-655). -/
def handleExistingClientMenu (message : String) : Option ConvStep :=
  let m := jsTrim message
  if m = "2" ∨ m = "billing" then
    some { step := "billing_cpf"
           message := "Para consultar suas cobranças e pagamentos, por favor informe seu CPF (apenas números)." }
  else if m = "7" then some getSupportStep
  else if m = "menu" then some getWelcomeStep
  else none

/-- `handleContractCpf` (lines 494-553). -/
def handleContractCpf (env : Env) (message : String) (ts : TurnState) :
    TurnState × Option ConvStep :=
  let cpfNumbers := stripNonDigits message
  if cpfNumbers.length = 11 then
    if isValidCPF cpfNumbers then
      let ts1 := updateClienteData "cpf" (JVal.vStr cpfNumbers) ts
      let ts2 : TurnState := { ts1 with trace := Eff.cpfFetch cpfNumbers :: ts1.trace }
      match env.checkCpfExists cpfNumbers with
      | some aluno =>
          (ts2, some
            { step := "existing_client_menu"
              message := "CPF válido e já cadastrado.\n\nNome: " ++ aluno.nomeCompleto
                ++ "\nCódigo da Turma: " ++ aluno.turmaId ++ "\n\nComo podemos ajudar agora?"
              optionList := some
                { title := "Opções disponíveis"
                  buttonLabel := "Abrir opções"
                  options :=
                    [ ⟨"2", "Cobrança ou Pagamentos", "Consultar boletos/PIX ou carnês."⟩
                    , ⟨"7", "Falar com um atendente", "Nossa equipe entrará em contato."⟩
                    , ⟨"menu", "Voltar ao menu inicial", "Retornar ao início."⟩ ] } })
      | none =>
          (ts2, some { step := "contract_class_code"
                       message := "✅ CPF válido!\n\nDigite o código da sua turma:" })
    else
      (ts, some { step := "contract_cpf"
                  message := "❌ CPF inválido. Por favor, verifique os números digitados e tente novamente.\n\n👉 Exemplo: 00516400320" })
  else if cpfNumbers.length > 0 then
    (ts, some { step := "contract_cpf"
                message := "❌ CPF deve ter exatamente 11 dígitos. Você digitou "
                  ++ toString cpfNumbers.length
                  ++ " números.\n\nPor favor, digite apenas números, sem pontos nem traços.\n👉 Exemplo: 00516400320" })
  else
    (ts, some { step := "contract_cpf"
                message := "Por favor, digite seu CPF com apenas números.\n\n👉 Exemplo: 00516400320" })

/-- `handleClassCode` (lines 660-701): cohort lookup; on failure increments
the per-session `tentativasTurma` counter and escalates to the support
handoff at the third consecutive failure. -/
def handleClassCode (env : Env) (message : String) (ts : TurnState) :
    TurnState × Option ConvStep :=
  let turmaId := jsTrim message
  if turmaId = "" then
    (ts, some { step := "contract_class_code"
                message := "Por favor, digite o código da sua turma." })
  else
    let ts0 : TurnState := { ts with trace := Eff.turmaFetch turmaId :: ts.trace }
    match env.checkTurmaExists turmaId with
    | some turma =>
        let ts1 := updateClienteData "turmaId" (JVal.vNum turma.id) ts0
        (ts1, some
          { step := "contract_name"
            message := "✅ Turma encontrada!\n\nTurma: " ++ turma.nomeTurma
              ++ "\nUniversidade: " ++ turma.universidade ++ "\nCurso: " ++ turma.curso
              ++ "\n\nAgora vamos coletar seus dados pessoais.\n\nDigite seu nome completo:" })
    | none =>
        let sr := getOrCreateSession ts0
        let session := sr.1
        let tentativas :=
          ratAdd (jsOrNum (session.data.bind (fun dobj => jgetNum dobj "tentativasTurma")) 0) 1
        let ts2 := updateSession "contract_class_code" message
          (some (jset (session.data.getD []) "tentativasTurma" (JVal.vNum tentativas))) sr.2
        if ratLe 3 tentativas then (ts2, some getSupportStep)
        else
          (ts2, some { step := "contract_class_code"
                       message := "❌ Código da turma não encontrado. Verifique o código e tente novamente.\n\nDigite o código da sua turma:" })

/-- `s.replace(/\s/g, '')`. -/
def removeWS (s : String) : String :=
  ⟨s.toList.filter (fun c => !c.isWhitespace)⟩

/-- `Array.prototype.join(', ')` over parsed numbers. -/
def joinCommaInts : List Int → String
  | [] => ""
  | [n] => toString n
  | n :: rest => toString n ++ ", " ++ joinCommaInts rest

/-- Two-decimal money rendering, modelling `toFixed(2)` on the exact-cent
values occurring in the flows. -/
def fmtMoney (q : Rat) : String :=
  let cents := (ratFloor (ratMul q 100)).toNat
  toString (cents / 100) ++ "." ++ pad2 (cents % 100)

/-- The `R$`-or-`Consultar` item value display of the catalog lists. -/
def itemValorDisplay (it : Item) : String :=
  match it.valor with
  | some q => "R$ " ++ fmtMoney q
  | none => "Consultar"

/-- Encoding of a selected item as it is stored in `pacoteData`. -/
def itemToJVal (it : Item) : JVal :=
  JVal.vObj
    (("nome", JVal.vStr it.nome) ::
      (match it.valor with
       | some q => [("valor", JVal.vNum q)]
       | none => []))

/-- The selected-items block of the package summary message. -/
def resumoItens : Nat → List Item → String
  | _, [] => ""
  | i, it :: rest =>
      toString (i + 1) ++ ". " ++ it.nome ++ " - " ++ itemValorDisplay it ++ "\n\n"
        ++ resumoItens (i + 1) rest

/-- The sim/não confirmation option list of `handlePackageSelection`. -/
def confirmOptions : ConvOptionList :=
  { title := "Confirmar Pacote"
    buttonLabel := "Confirmar"
    options :=
      [ ⟨"sim", "Sim, confirmar", "Prosseguir com este pacote"⟩
      , ⟨"nao", "Não, alterar", "Refazer as escolhas"⟩ ] }

/-- `handlePackageSelection` (lines 1076-1165): comma-separated 1-based
positions against the catalog; all positions must lie in `[1, length]` or
the whole selection is rejected naming the invalid ones; accepted
selections are summed and stored. -/
def handlePackageSelection (env : Env) (message : String) (ts : TurnState) :
    TurnState × Option ConvStep :=
  let sr := getOrCreateSession ts
  let session := sr.1
  let ts0 := sr.2
  let clienteData := session.data.bind (fun dobj => jgetObj dobj "clienteData")
  let pacoteData := session.data.bind (fun dobj => jgetObj dobj "pacoteData")
  let configId := pacoteData.bind (fun pobj => jget pobj "configuracaoTurmaId")
  if clienteData.isNone ∨ (configId.map jtruthy).getD false = false then
    (ts0, some { step := "main_menu"
                 message := "❌ Erro: Dados não encontrados. Retornando ao menu principal."
                 optionList := some getMainMenuOptions })
  else
    let ts1 : TurnState := { ts0 with trace := Eff.itensFetch :: ts0.trace }
    let itens := if env.itensApi.isEmpty then env.itensDb else env.itensApi
    if itens.isEmpty then
      (ts1, some { step := "main_menu"
                   message := "❌ Erro: Nenhum item disponível. Retornando ao menu principal."
                   optionList := some getMainMenuOptions })
    else
      let numerosStr := removeWS message
      let numeros := (splitComma numerosStr).filterMap parseIntJS
      if numeros.isEmpty then
        (ts1, some { step := "package_selection"
                     message := "❌ Por favor, digite os números dos itens separados por vírgula.\n\n📝 Exemplo: 1, 2, 3" })
      else
        let numerosInvalidos := numeros.filter (fun n => n < 1 ∨ n > (itens.length : Int))
        if numerosInvalidos.isEmpty = false then
          (ts1, some { step := "package_selection"
                       message := "❌ Número(s) inválido(s): " ++ joinCommaInts numerosInvalidos
                         ++ "\n\nPor favor, escolha números entre 1 e " ++ toString itens.length ++ "." })
        else
          let itensSelecionados := numeros.map (fun n => itens.getD (n - 1).toNat ⟨"", none⟩)
          let valorTotal := (itensSelecionados.map (fun it => jsOrNum it.valor 0)).foldl ratAdd 0
          let ts2 := updatePackageData "itensSelecionados"
            (JVal.vArr (itensSelecionados.map itemToJVal)) ts1
          let ts3 := updatePackageData "valorTotal" (JVal.vNum valorTotal) ts2
          (ts3, some
            { step := "package_confirmation"
              message := "📋 **RESUMO DO SEU PACOTE:**\n\n📦 **Itens selecionados:**\n\n"
                ++ resumoItens 0 itensSelecionados
                ++ "💰 **VALOR TOTAL: R$ " ++ fmtMoney valorTotal ++ "**\n\n✅ Confirma este pacote?"
              optionList := some confirmOptions })

/-- `handleBillingCpf` (lines 1561-1603): step guard, 11-digit extraction
with fallback to the CPF stored in the session, lookup, summary. -/
def handleBillingCpf (env : Env) (message : String) (ts : TurnState) :
    TurnState × Option ConvStep :=
  let gr := getOrCreateSession ts
  if gr.1.currentStep ≠ "billing_cpf" then (gr.2, none)
  else
    let cpf0 := stripNonDigits message
    let sr := getOrCreateSession gr.2
    let cpfCtx := sr.1.data.bind
      (fun dobj => (jgetObj dobj "clienteData").bind (fun c => jgetStr c "cpf"))
    let cpfNumbers :=
      if cpf0.length ≠ 11 then
        match cpfCtx with
        | some c =>
            if c ≠ "" ∧ (stripNonDigits c).length = 11 then stripNonDigits c else cpf0
        | none => cpf0
      else cpf0
    if cpfNumbers.length ≠ 11 then
      (sr.2, some { step := "billing_cpf"
                    message := "Por favor, informe um CPF válido com 11 dígitos (apenas números)." })
    else
      let ts2 : TurnState := { sr.2 with trace := Eff.cpfFetch cpfNumbers :: sr.2.trace }
      match env.checkCpfExists cpfNumbers with
      | none =>
          (ts2, some { step := "main_menu"
                       message := "CPF não encontrado. Retornando ao menu principal."
                       optionList := some getMainMenuOptions })
      | some aluno =>
          (ts2, some
            { step := "main_menu"
              message := "Aluno: " ++ aluno.nomeCompleto ++ " (Turma " ++ aluno.turmaId
                ++ ")\n\nResumo financeiro:\n- Boletos/PIX pendentes: 0\n- Carnês pendentes: 0"
              optionList := some getMainMenuOptions })

/-! ### Payment branch -/

/-- Integer part of a (integer-valued) configuration number. -/
def ratToNat (q : Rat) : Nat :=
  (ratFloor q).toNat

/-- Template-literal rendering of a number. -/
def dispRat (q : Rat) : String :=
  if q.den = 1 then toString q.num else toString q

/-- Template-literal rendering of a possibly-absent number
(JavaScript renders an absent field as `undefined`). -/
def dispOptRat : Option Rat → String
  | some q => dispRat q
  | none => "undefined"

/-- JavaScript `s || d` on a string. -/
def orDefault (s d : String) : String :=
  if s = "" then d else s

/-- The `1x .. maxx` installment options built by the loops of
`showCarneParcelasOptions` and of the invalid branch of
`handleCarneParcelas`. -/
def mkParcelasOptions (mx : Nat) : List ConvOption :=
  (List.range mx).map (fun i =>
    ⟨toString (i + 1), toString (i + 1) ++ "x",
      if i = 0 then "À vista" else "Parcelamento em " ++ toString (i + 1) ++ " vezes"⟩)

/-- `showCarneParcelasOptions` (lines 1715-1737). -/
def showCarneParcelasOptions (cfg : ConfigTurma) : ConvStep :=
  let carneMaxParcelas := jsOrNum cfg.carneMaxParcelas 1
  { step := "carne_parcelas"
    message := "💳 **Escolha a quantidade de parcelas:**\n\nVocê pode parcelar em até "
      ++ dispRat carneMaxParcelas ++ "x."
    optionList := some
      { title := "Quantidade de Parcelas"
        buttonLabel := "Escolher parcelas"
        options := mkParcelasOptions (ratToNat carneMaxParcelas) } }

/-- The catch-all payment error step of `processPaymentBoletoPix` and
`processPaymentCarne`. -/
def erroPagamentoStep (m : String) : ConvStep :=
  { step := "main_menu"
    message := "❌ **Erro ao gerar pagamento**\n\n" ++ m
      ++ "\n\nPor favor, entre em contato com o suporte.\n\nRetornando ao menu principal."
    optionList := some getMainMenuOptions }

/-- `processPaymentBoletoPix` (lines 1794-1861). -/
def processPaymentBoletoPix (env : Env) (ts : TurnState) : TurnState × ConvStep :=
  let sr := getOrCreateSession ts
  let session := sr.1
  let clienteData := session.data.bind (fun dobj => jgetObj dobj "clienteData")
  let pacoteData := session.data.bind (fun dobj => jgetObj dobj "pacoteData")
  match clienteData, pacoteData with
  | some _, some p =>
      let valorTotal := jsOrNum (jgetNum p "valorTotal") 0
      let ts1 : TurnState := { sr.2 with trace := Eff.boletoReq valorTotal :: sr.2.trace }
      if env.boleto.success = false then
        (ts1, erroPagamentoStep (orDefault env.boleto.errMsg "Erro ao gerar boleto"))
      else
        (ts1,
          { step := "main_menu"
            message := "💳 **BOLEPIX (Boleto + PIX)**\n\n💰 Valor Total: R$ " ++ fmtMoney valorTotal
              ++ "\n\n📋 **Pagamento disponível em boleto e PIX no mesmo título:**\n\n**📄 BOLETO**\n🔗 Link: "
              ++ env.boleto.link ++ "\n📱 Código de Barras:\n" ++ env.boleto.barcode ++ "\n\n"
              ++ (if env.boleto.pixQrcode then
                    "**🔵 PIX (No mesmo boleto)**\n🧾 QR Code (imagem): disponível no link do boleto\n"
                  else "")
              ++ "✅ Seu pedido foi registrado com sucesso!\n\nRetornando ao menu principal."
            optionList := some getMainMenuOptions })
  | _, _ => (sr.2, erroPagamentoStep "Dados do cliente ou pacote não encontrados")

/-- `processPaymentCarne` (lines 1866-1942).  The payment request carries
the total, the installment count and the first due date
(`calcularVencimentoPadrao`).  The locale rendering of the first
installment due date in the confirmation text is modelled by the raw
string. -/
def processPaymentCarne (env : Env) (parcelas : Int) (ts : TurnState) : TurnState × ConvStep :=
  let sr := getOrCreateSession ts
  let session := sr.1
  let clienteData := session.data.bind (fun dobj => jgetObj dobj "clienteData")
  let pacoteData := session.data.bind (fun dobj => jgetObj dobj "pacoteData")
  match clienteData, pacoteData with
  | some _, some p =>
      let valorTotal := jsOrNum (jgetNum p "valorTotal") 0
      let valorParcela := ratDiv valorTotal (parcelas : Rat)
      let venc := calcularVencimentoPadrao env.today
      let ts1 : TurnState :=
        { sr.2 with trace := Eff.carneReq valorTotal parcelas venc :: sr.2.trace }
      if env.carne.success = false then
        (ts1, erroPagamentoStep (orDefault env.carne.errMsg "Erro ao gerar carnê"))
      else
        let primeiraParcela := env.carne.parcelas.getD 0 ⟨"", 0, "", ""⟩
        (ts1,
          { step := "main_menu"
            message := "💳 **PAGAMENTO PARCELADO (Carnê " ++ toString parcelas
              ++ "x)**\n\n💰 Valor Total: R$ " ++ fmtMoney valorTotal
              ++ "\n📅 Valor da Parcela: R$ " ++ fmtMoney valorParcela
              ++ "\n\n📋 **1ª Parcela:**\n📅 Vencimento: " ++ primeiraParcela.vencimento
              ++ "\n💵 Valor: R$ " ++ fmtMoney primeiraParcela.valor
              ++ "\n\n**📄 BOLETO**\n🔗 Link: " ++ primeiraParcela.link
              ++ "\n📱 Código de Barras:\n" ++ primeiraParcela.barcode
              ++ "\n\n✅ Seu pedido foi registrado com sucesso!\n📬 As demais parcelas serão enviadas nos próximos meses.\n\nRetornando ao menu principal."
            optionList := some getMainMenuOptions })
  | _, _ => (sr.2, erroPagamentoStep "Dados do cliente ou pacote não encontrados")

/-- `handlePaymentMethodSelection` (lines 1658-1710). -/
def handlePaymentMethodSelection (env : Env) (message : String) (ts : TurnState) :
    TurnState × Option ConvStep :=
  let sr := getOrCreateSession ts
  let session := sr.1
  let clienteData := session.data.bind (fun dobj => jgetObj dobj "clienteData")
  let pacoteData := session.data.bind (fun dobj => jgetObj dobj "pacoteData")
  let configId := pacoteData.bind (fun pobj => jget pobj "configuracaoTurmaId")
  if clienteData.isNone ∨ (configId.map jtruthy).getD false = false then
    (sr.2, some { step := "main_menu"
                  message := "❌ Erro: Dados não encontrados. Retornando ao menu principal."
                  optionList := some getMainMenuOptions })
  else
    let ts0 : TurnState := { sr.2 with trace := Eff.configFetch :: sr.2.trace }
    match env.configTurma with
    | none =>
        (ts0, some { step := "main_menu"
                     message := "❌ Erro: Configuração da turma não encontrada. Retornando ao menu principal."
                     optionList := some getMainMenuOptions })
    | some cfg =>
        if message = "boleto_pix" then
          let r := processPaymentBoletoPix env ts0
          (r.1, some r.2)
        else if message = "carne" then (ts0, some (showCarneParcelasOptions cfg))
        else
          (ts0, some
            { step := "payment_method"
              message := "❌ Opção inválida. Por favor, escolha uma das opções disponíveis."
              optionList := some
                { title := "Métodos de Pagamento"
                  buttonLabel := "Escolher método"
                  options :=
                    [ ⟨"boleto_pix", "Boleto/PIX", "Pagamento à vista"⟩
                    , ⟨"carne", "Carnê (em até " ++ dispOptRat cfg.carneMaxParcelas ++ "x)",
                        "Parcelamento em até " ++ dispOptRat cfg.carneMaxParcelas ++ "x"⟩ ] } })

/-- The invalid branch of `handleCarneParcelas` (lines 1757-1782): re-reads
the session and the cohort configuration (default maximum 6) to rebuild the
bounded option list. -/
def carneInvalidBranch (env : Env) (ts : TurnState) : TurnState × Option ConvStep :=
  let sr := getOrCreateSession ts
  let clienteData := sr.1.data.bind (fun dobj => jgetObj dobj "clienteData")
  let ts1 : TurnState :=
    if clienteData.isSome then { sr.2 with trace := Eff.configFetch :: sr.2.trace } else sr.2
  let cfgOpt := if clienteData.isSome then env.configTurma else none
  let carneMaxParcelas := jsOrNum (cfgOpt.bind ConfigTurma.carneMaxParcelas) 6
  (ts1, some
    { step := "carne_parcelas"
      message := "❌ Número de parcelas inválido. Por favor, escolha uma opção válida."
      optionList := some
        { title := "Quantidade de Parcelas"
          buttonLabel := "Escolher parcelas"
          options := mkParcelasOptions (ratToNat carneMaxParcelas) } })

/-- `handleCarneParcelas` (lines 1742-1789): the only validation applied to
the parsed installment count is `isNaN(parcelas) || parcelas < 1`. -/
def handleCarneParcelas (env : Env) (message : String) (ts : TurnState) :
    TurnState × Option ConvStep :=
  let sr := getOrCreateSession ts
  let session := sr.1
  let clienteData := session.data.bind (fun dobj => jgetObj dobj "clienteData")
  let pacoteData := session.data.bind (fun dobj => jgetObj dobj "pacoteData")
  let configId := pacoteData.bind (fun pobj => jget pobj "configuracaoTurmaId")
  if clienteData.isNone ∨ (configId.map jtruthy).getD false = false then
    (sr.2, some { step := "main_menu"
                  message := "❌ Erro: Dados não encontrados. Retornando ao menu principal."
                  optionList := some getMainMenuOptions })
  else
    match parseIntJS message with
    | none => carneInvalidBranch env sr.2
    | some parcelas =>
        if parcelas < 1 then carneInvalidBranch env sr.2
        else
          let ts1 := updatePackageData "parcelas" (JVal.vNum (parcelas : Rat)) sr.2
          let r := processPaymentCarne env parcelas ts1
          (r.1, some r.2)

/-! ### Dispatch and orchestration -/

/-- `determineResponse` (lines 295-435), restricted to the steps the claims
exercise.  The source steps not listed here (the progressive field
collection `contract_name` .. `contract_state`, `contract_confirmed`, the
legacy `package_album_size` .. `package_confirmation` states, and the
static `contract`/`editing`/`admin`/`quote`/`meeting` entries) are not
modelled; no claim depends on them.  The source `default` branch returns
null (deliberate anti-loop measure), as modelled by the final case. -/
def determineResponse (env : Env) (session : SessionCtx) (message : String)
    (ts : TurnState) : TurnState × Option ConvStep :=
  let messageLower := jsTrim (jsToLower message)
  match session.currentStep with
  | "welcome" => (ts, some getWelcomeStep)
  | "main_menu" => (ts, handleMainMenu messageLower)
  | "contract_cpf" => handleContractCpf env messageLower ts
  | "existing_client_menu" => (ts, handleExistingClientMenu messageLower)
  | "contract_class_code" => handleClassCode env messageLower ts
  | "package_selection" => handlePackageSelection env messageLower ts
  | "billing_cpf" => handleBillingCpf env messageLower ts
  | "payment_method" => handlePaymentMethodSelection env messageLower ts
  | "carne_parcelas" => handleCarneParcelas env messageLower ts
  | "billing" => (ts, some getBillingStep)
  | "support" => (ts, some getSupportStep)
  | _ => (ts, none)

/-- The message-content extraction of `processIncomingMessage`
(lines 61-112): list reply id, button id, text body, then plain string
message (the legacy `message.conversation` object shape is not modelled). -/
def msgContentOf (p : Payload) : String :=
  match p.listRowId with
  | some rid => rid
  | none =>
      match p.buttonId with
      | some bid => bid
      | none =>
          let t := jsOrStr p.textMsg ""
          if t ≠ "" then t else jsOrStr p.message ""

/-- The orchestration skeleton of `processIncomingMessage` (lines 47-143)
over an arbitrary transition function `h`: inbound log, session load,
transition, and — only when the transition is non-null — re-read of the
session, one session update with the response step and the re-read data,
and the outbound send.  The response is also returned for specification
purposes. -/
def runTurn (h : Env → SessionCtx → String → TurnState → TurnState × Option ConvStep)
    (env : Env) (p : Payload) (ts : TurnState) : TurnState × Option ConvStep :=
  let content := msgContentOf p
  let ts1 := logIncomingMsg content ts
  let sr := getOrCreateSession ts1
  let hr := h env sr.1 content sr.2
  match hr.2 with
  | none => (hr.1, none)
  | some r =>
      let cr := getOrCreateSession hr.1
      let ts5 := updateSession r.step content cr.1.data cr.2
      let ts6 := sendResponse env r ts5
      (ts6, some r)

/-- `processIncomingMessage`: the orchestration applied to the engine. -/
def processIncomingMessage (env : Env) (p : Payload) (ts : TurnState) :
    TurnState × Option ConvStep :=
  runTurn determineResponse env p ts

/-! ### Specification-level accessors and predicates -/

/-- The durable `context` bag of the phone, when present. -/
def dbData (st : Store) : Option JObj :=
  st.db.bind DbRow.context

/-- The cached `data` bag of the phone, when present. -/
def cacheDataOf (st : Store) : Option JObj :=
  st.cache.bind SessionCtx.data

/-- The `clienteData` sub-record of a data bag (empty object when absent). -/
def clienteOf (D : JObj) : JObj :=
  (jgetObj D "clienteData").getD []

/-- The `pacoteData` sub-record of a data bag (empty object when absent). -/
def pacoteOf (D : JObj) : JObj :=
  (jgetObj D "pacoteData").getD []

/-- The data-bag transformation performed by one `updateClienteData` call. -/
def clienteStep (D : JObj) (kv : String × JVal) : JObj :=
  jset D "clienteData" (JVal.vObj (jset (clienteOf D) kv.1 kv.2))

/-- The data-bag transformation performed by one `updatePackageData` call. -/
def pacoteStep (D : JObj) (kv : String × JVal) : JObj :=
  jset D "pacoteData" (JVal.vObj (jset (pacoteOf D) kv.1 kv.2))

/-- A sequence of `updateClienteData` calls. -/
def applyClienteWrites (ws : List (String × JVal)) (ts : TurnState) : TurnState :=
  ws.foldl (fun t kv => updateClienteData kv.1 kv.2 t) ts

/-- Folding plain key assignments over an object. -/
def setFold (C : JObj) (ws : List (String × JVal)) : JObj :=
  ws.foldl (fun c kv => jset c kv.1 kv.2) C

/-- A healthy store for one phone: database and cache available, cache and
durable row agree and both carry the data bag `D`, whose keys are
duplicate-free. -/
def StoreOk (st : Store) (D : JObj) : Prop :=
  st.dbAvailable = true ∧ st.cacheAvailable = true ∧
    (∃ step msg, st.cache = some ⟨step, msg, some D⟩ ∧ st.db = some ⟨step, msg, some D⟩) ∧
    (jkeys D).Nodup

/-- Effect classifier: inbound message-log write. -/
def isLogIncomingE : Eff → Bool
  | Eff.logIncoming _ => true
  | _ => false

/-- Effect classifier: outgoing message-log write. -/
def isLogOutgoingE : Eff → Bool
  | Eff.logOutgoing _ => true
  | _ => false

/-- Effect classifier: outbound gateway send. -/
def isSendE : Eff → Bool
  | Eff.send _ => true
  | _ => false

/-- Effect classifier: session-store update operation. -/
def isSessionUpdateE : Eff → Bool
  | Eff.sessionUpdate _ => true
  | _ => false

/-- Messaging-side effects: sends and message-log writes (the orchestrator
owns these; handlers only touch the store and the external gateways). -/
def effMessaging (e : Eff) : Bool :=
  isSendE e || isLogIncomingE e || isLogOutgoingE e

/-- A computation step that leaves the availability flags unchanged and only
appends non-messaging effects to the trace. -/
def TameStep (ts ts' : TurnState) : Prop :=
  ts'.store.dbAvailable = ts.store.dbAvailable ∧
    ts'.store.cacheAvailable = ts.store.cacheAvailable ∧
    ∃ L, ts'.trace = L ++ ts.trace ∧ ∀ e ∈ L, effMessaging e = false

/-- The payment-backend installment request carried by an effect. -/
def carneReqOf : Eff → Option (Rat × Int × String)
  | Eff.carneReq v n s => some (v, n, s)
  | _ => none

/-! ### Concrete instances used in witnesses and counterexamples -/

/-- A small healthy data bag. -/
def mergeD : JObj := [("x", JVal.vNum 1)]

/-- A healthy store carrying `mergeD` in both levels. -/
def mergeStore : Store :=
  ⟨true, some ⟨"s", "m", some mergeD⟩, true, some ⟨"s", "m", some mergeD⟩⟩

/-- Two customer-data writes with disjoint keys. -/
def mergeWrites : List (String × JVal) :=
  [("cpf", JVal.vStr "52998224725"), ("email", JVal.vStr "ana@mail.com")]

/-- A valid inbound text event with a provider message id. -/
def pOutage : Payload :=
  ⟨"5599911112222", "text", some "oi", none, none, none, false, some "msg-1"⟩

/-- The guard store during an outage. -/
def gOutage : GuardStore := ⟨false, []⟩

/-- An inbound text event whose body is the free text `hello`. -/
def pHello : Payload :=
  ⟨"5599911112222", "text", none, some "hello", none, none, false, none⟩

/-- An environment whose external lookups all fail; no claim instantiated
at it depends on the external responses. -/
def envW : Env :=
  ⟨fun _ => none, fun _ => none, [], [], none,
    ⟨false, [], ""⟩, ⟨false, "", "", false, ""⟩, true, 20000⟩

/-- A healthy store whose session sits at `main_menu`. -/
def stMainMenu : Store :=
  ⟨true, some ⟨"main_menu", "", none⟩, true, some ⟨"main_menu", "", none⟩⟩

/-- A session data bag with a registered customer and a cohort
configuration, plus a computed package total. -/
def carneD : JObj :=
  [ ("clienteData", JVal.vObj [("cpf", JVal.vStr "11144477735"), ("id", JVal.vNum 9)])
  , ("pacoteData", JVal.vObj
      [("configuracaoTurmaId", JVal.vNum 77), ("valorTotal", JVal.vNum 40)]) ]

/-- An environment whose cohort configuration allows at most 6 installments
and whose payment backend succeeds. -/
def envCarne : Env :=
  ⟨fun _ => none, fun _ => none, [], [], some ⟨77, some 6⟩,
    ⟨true, [⟨"2024-10-11", 10, "L", "B"⟩], ""⟩, ⟨true, "L", "B", true, ""⟩, true, 20000⟩

/-- A healthy turn state at the `carne_parcelas` step. -/
def tsCarne : TurnState :=
  ⟨⟨true, some ⟨"carne_parcelas", "", some carneD⟩,
    true, some ⟨"carne_parcelas", "", some carneD⟩⟩, []⟩

/-- A session data bag ready for package selection. -/
def pkgD : JObj :=
  [ ("clienteData", JVal.vObj [("cpf", JVal.vStr "11144477735")])
  , ("pacoteData", JVal.vObj [("configuracaoTurmaId", JVal.vNum 77)]) ]

/-- An environment whose catalog holds three items priced 10.00, 20.00 and
30.00. -/
def envPkg : Env :=
  ⟨fun _ => none, fun _ => none,
    [⟨"Álbum", some 10⟩, ⟨"Fotos", some 20⟩, ⟨"Extra", some 30⟩], [], none,
    ⟨false, [], ""⟩, ⟨false, "", "", false, ""⟩, true, 20000⟩

/-- A healthy turn state at the `package_selection` step. -/
def tsPkg : TurnState :=
  ⟨⟨true, some ⟨"package_selection", "", some pkgD⟩,
    true, some ⟨"package_selection", "", some pkgD⟩⟩, []⟩

/-- A session data bag holding two failed cohort-code attempts. -/
def ccD : JObj := [("tentativasTurma", JVal.vNum 2)]

/-- A healthy turn state at the `contract_class_code` step after two failed
attempts. -/
def tsCC : TurnState :=
  ⟨⟨true, some ⟨"contract_class_code", "", some ccD⟩,
    true, some ⟨"contract_class_code", "", some ccD⟩⟩, []⟩

/-- A session data bag whose stored customer CPF is `111.444.777-35`. -/
def billD : JObj :=
  [("clienteData", JVal.vObj [("cpf", JVal.vStr "111.444.777-35")])]

/-- A healthy turn state at the `billing_cpf` step with a stored CPF. -/
def tsBill : TurnState :=
  ⟨⟨true, some ⟨"billing_cpf", "", some billD⟩,
    true, some ⟨"billing_cpf", "", some billD⟩⟩, []⟩

/-- A healthy turn state at the `billing_cpf` step with no stored CPF. -/
def tsBillEmpty : TurnState :=
  ⟨⟨true, some ⟨"billing_cpf", "", some []⟩,
    true, some ⟨"billing_cpf", "", some []⟩⟩, []⟩

/-- The orchestrator's outbound-messaging effects for a turn started from
store `st`: nothing when the transition returned null; otherwise one gateway
send, preceded in the trace by an outgoing log write exactly when the
gateway accepted the message and the database was available. -/
def turnSendPart (env : Env) (st : Store) : Option ConvStep → List Eff
  | none => []
  | some r =>
      if env.sendOk && st.dbAvailable then
        [Eff.logOutgoing r.message, Eff.send r.message]
      else [Eff.send r.message]

/-- The orchestrator's own session update of a turn: absent when the
transition returned null. -/
def turnUpdatePart : Option ConvStep → List Eff
  | none => []
  | some r => [Eff.sessionUpdate r.step]

/-- The inbound message-log write of a turn: present exactly when the
database is available. -/
def turnIncomingLog (st : Store) (p : Payload) : List Eff :=
  if st.dbAvailable then [Eff.logIncoming (msgContentOf p)] else []

/-- An inbound text event carrying a cohort code no cohort answers to. -/
def pClass : Payload :=
  ⟨"559", "text", none, some "badcode", none, none, false, some "m7"⟩

/-- A healthy store whose session sits at `contract_class_code` with an
empty registered-customer record. -/
def stClass : Store :=
  ⟨true, some ⟨"contract_class_code", "", some [("clienteData", JVal.vObj [])]⟩,
   true, some ⟨"contract_class_code", "", some [("clienteData", JVal.vObj [])]⟩⟩

/-! ## Lemmas about the object algebra -/

theorem jget_jset_self (o : JObj) (k : String) (v : JVal) :
    jget (jset o k v) k = some v := by
  induction o with
  | nil => simp [jset, jget]
  | cons kv rest ih =>
      obtain ⟨k', v'⟩ := kv
      by_cases h : k' = k
      · simp [jset, h, jget]
      · simp [jset, h, jget, ih]

theorem jget_jset_ne (o : JObj) (k : String) (v : JVal) (k' : String) (h : k ≠ k') :
    jget (jset o k v) k' = jget o k' := by
  induction o with
  | nil => simp [jset, jget, h]
  | cons kv rest ih =>
      obtain ⟨k₀, v₀⟩ := kv
      by_cases h0 : k₀ = k
      · subst h0
        simp [jset, jget, h]
      · simp [jset, h0, jget, ih]

theorem jset_of_jget (o : JObj) (k : String) (v : JVal) (h : jget o k = some v) :
    jset o k v = o := by
  induction o with
  | nil => simp [jget] at h
  | cons kv rest ih =>
      obtain ⟨k₀, v₀⟩ := kv
      by_cases h0 : k₀ = k
      · subst h0
        simp [jget] at h
        simp [jset, h]
      · simp [jget, h0] at h
        simp [jset, h0, ih h]

theorem jget_of_mem_nodup (o : JObj) (hnd : (jkeys o).Nodup) (k : String) (v : JVal)
    (hm : (k, v) ∈ o) : jget o k = some v := by
  induction o with
  | nil => simp at hm
  | cons kv rest ih =>
      obtain ⟨k₀, v₀⟩ := kv
      have hnd' : k₀ ∉ jkeys rest ∧ (jkeys rest).Nodup :=
        List.nodup_cons.mp hnd
      rcases List.mem_cons.mp hm with heq | htl
      · cases heq
        simp [jget]
      · by_cases h0 : k₀ = k
        · subst h0
          exact absurd (List.mem_map_of_mem Prod.fst htl) hnd'.1
        · simpa [jget, h0] using ih hnd'.2 htl

theorem jmerge_eq_of_lookup (o n : JObj) (h : ∀ kv ∈ n, jget o kv.1 = some kv.2) :
    jmerge o n = o := by
  induction n with
  | nil => rfl
  | cons kv rest ih =>
      have hs : jset o kv.1 kv.2 = o := jset_of_jget o kv.1 kv.2 (h kv (by simp))
      show List.foldl (fun acc kv => jset acc kv.1 kv.2) (jset o kv.1 kv.2) rest = o
      rw [hs]
      exact ih (fun kv hkv => h kv (by simp [hkv]))

theorem jmerge_self (o : JObj) (hnd : (jkeys o).Nodup) : jmerge o o = o :=
  jmerge_eq_of_lookup o o (fun kv hkv => jget_of_mem_nodup o hnd kv.1 kv.2 hkv)

theorem jkeys_jset (o : JObj) (k : String) (v : JVal) :
    jkeys (jset o k v) = if k ∈ jkeys o then jkeys o else jkeys o ++ [k] := by
  induction o with
  | nil => simp [jset, jkeys]
  | cons kv rest ih =>
      obtain ⟨k₀, v₀⟩ := kv
      by_cases h0 : k₀ = k
      · subst h0
        simp [jset, jkeys]
      · have hne : ¬(k = k₀) := fun hh => h0 hh.symm
        have hstep : jkeys (jset ((k₀, v₀) :: rest) k v) = k₀ :: jkeys (jset rest k v) := by
          simp [jset, h0, jkeys]
        rw [hstep, ih]
        simp only [jkeys, List.map_cons]
        by_cases hmem : k ∈ List.map Prod.fst rest
        · rw [if_pos hmem, if_pos (List.mem_cons_of_mem k₀ hmem)]
        · have hcons : k ∉ k₀ :: List.map Prod.fst rest := by
            intro hc
            rcases List.mem_cons.mp hc with h1 | h2
            · exact hne h1
            · exact hmem h2
          rw [if_neg hmem, if_neg hcons, List.cons_append]

theorem nodup_jkeys_jset (o : JObj) (k : String) (v : JVal) (h : (jkeys o).Nodup) :
    (jkeys (jset o k v)).Nodup := by
  rw [jkeys_jset]
  by_cases hmem : k ∈ jkeys o
  · simpa [hmem] using h
  · rw [if_neg hmem]
    refine List.Nodup.append h (List.nodup_singleton k) ?_
    intro a ha hb
    rw [List.mem_singleton] at hb
    subst hb
    exact hmem ha

theorem jget_setFold_not_mem (ws : List (String × JVal)) :
    ∀ (C : JObj) (k : String), k ∉ ws.map Prod.fst →
      jget (setFold C ws) k = jget C k := by
  induction ws with
  | nil => intro C k _; rfl
  | cons kv rest ih =>
      intro C k h
      have h1 : kv.1 ≠ k := by
        intro hh
        exact h (by simp [List.mem_map]; exact Or.inl hh.symm)
      have h2 : k ∉ rest.map Prod.fst := by
        intro hc
        exact h (by simp [List.mem_map] at hc ⊢; exact Or.inr hc)
      show jget (setFold (jset C kv.1 kv.2) rest) k = jget C k
      rw [ih (jset C kv.1 kv.2) k h2, jget_jset_ne C kv.1 kv.2 k h1]

theorem jget_setFold_mem (ws : List (String × JVal)) :
    ∀ (C : JObj), (ws.map Prod.fst).Nodup →
      ∀ (k : String) (v : JVal), (k, v) ∈ ws → jget (setFold C ws) k = some v := by
  induction ws with
  | nil => intro C _ k v hm; simp at hm
  | cons kv rest ih =>
      intro C hnd k v hm
      have hnd' : kv.1 ∉ rest.map Prod.fst ∧ (rest.map Prod.fst).Nodup :=
        List.nodup_cons.mp hnd
      rcases List.mem_cons.mp hm with heq | htl
      · cases heq
        show jget (setFold (jset C k v) rest) k = some v
        rw [jget_setFold_not_mem rest (jset C k v) k hnd'.1, jget_jset_self]
      · exact ih (jset C kv.1 kv.2) hnd'.2 k v htl

/-! ## Bridge lemmas: the computable rational operations agree with `Rat` -/

theorem ratAdd_eq (a b : Rat) : ratAdd a b = a + b := by
  have ha : ((a.den : ℤ)) ≠ 0 := Int.natCast_ne_zero.mpr a.den_nz
  have hb : ((b.den : ℤ)) ≠ 0 := Int.natCast_ne_zero.mpr b.den_nz
  rw [ratAdd, Rat.mkRat_eq_divInt]
  conv_rhs => rw [← Rat.num_divInt_den a, ← Rat.num_divInt_den b]
  rw [Rat.divInt_add_divInt _ _ ha hb]
  push_cast
  rfl

theorem ratMul_eq (a b : Rat) : ratMul a b = a * b := by
  rw [ratMul, Rat.mkRat_eq_divInt]
  conv_rhs => rw [← Rat.num_divInt_den a, ← Rat.num_divInt_den b]
  rw [Rat.divInt_mul_divInt']
  push_cast
  rfl

theorem ratLe_iff (a b : Rat) : ratLe a b = true ↔ a ≤ b := by
  rw [ratLe, decide_eq_true_eq]
  exact Rat.le_def.symm

theorem ratFloor_eq (q : Rat) : ratFloor q = q.floor :=
  (Rat.floor_def' q).symm

theorem ratDiv_eq (a b : Rat) : ratDiv a b = a / b := by
  have hd : a / b = Rat.divInt (a.num * b.den) (a.den * b.num) := by
    rw [div_eq_mul_inv]
    conv_lhs => rw [← Rat.num_divInt_den a, Rat.inv_def']
    rw [Rat.divInt_mul_divInt']
  rw [ratDiv]
  by_cases hb : 0 ≤ b.num
  · rw [if_pos hb, Rat.mkRat_eq_divInt, hd]
    push_cast [Int.toNat_of_nonneg hb]
    rfl
  · rw [if_neg hb, Rat.mkRat_eq_divInt, hd]
    have hbn : ((-b.num).toNat : ℤ) = -b.num :=
      Int.toNat_of_nonneg (by omega)
    push_cast [hbn]
    rw [show ((a.den : ℤ)) * -b.num = -((a.den : ℤ) * b.num) by ring,
      Rat.divInt_neg, neg_neg]

/-! ## Lemmas about the session store operations -/

theorem getOrCreate_cacheHit (ts : TurnState) (ctx : SessionCtx)
    (h1 : ts.store.cacheAvailable = true) (h2 : ts.store.cache = some ctx) :
    getOrCreateSession ts = (ctx, ts) := by
  unfold getOrCreateSession
  rw [h1, h2]

theorem getOrCreate_trace (ts : TurnState) :
    (getOrCreateSession ts).2.trace = ts.trace := by
  unfold getOrCreateSession cachePut
  rcases h1 : ts.store.cacheAvailable with _ | _ <;>
    rcases h2 : ts.store.cache with _ | ctx <;>
      rcases h3 : ts.store.db with _ | row <;>
        simp [h1, h2, h3] <;> split <;> simp

theorem getOrCreate_dbAvailable (ts : TurnState) :
    (getOrCreateSession ts).2.store.dbAvailable = ts.store.dbAvailable := by
  unfold getOrCreateSession cachePut
  rcases h1 : ts.store.cacheAvailable with _ | _ <;>
    rcases h2 : ts.store.cache with _ | ctx <;>
      rcases h3 : ts.store.db with _ | row <;>
        simp [h1, h2, h3] <;> split <;> simp

theorem getOrCreate_cacheAvailable (ts : TurnState) :
    (getOrCreateSession ts).2.store.cacheAvailable = ts.store.cacheAvailable := by
  unfold getOrCreateSession cachePut
  rcases h1 : ts.store.cacheAvailable with _ | _ <;>
    rcases h2 : ts.store.cache with _ | ctx <;>
      rcases h3 : ts.store.db with _ | row <;>
        simp [h1, h2, h3] <;> split <;> simp [h1]

theorem updateSession_trace (step m : String) (data : Option JObj) (ts : TurnState) :
    (updateSession step m data ts).trace = Eff.sessionUpdate step :: ts.trace := by
  unfold updateSession
  rcases hdb : ts.store.dbAvailable with _ | _ <;>
    rcases hc : ts.store.cacheAvailable with _ | _ <;>
      simp [hdb, hc, getOrCreate_trace]

theorem updateSession_dbAvailable (step m : String) (data : Option JObj) (ts : TurnState) :
    (updateSession step m data ts).store.dbAvailable = ts.store.dbAvailable := by
  unfold updateSession
  rcases hdb : ts.store.dbAvailable with _ | _ <;>
    rcases hc : ts.store.cacheAvailable with _ | _ <;>
      simp [hdb, hc, getOrCreate_dbAvailable]

theorem updateSession_cacheAvailable (step m : String) (data : Option JObj) (ts : TurnState) :
    (updateSession step m data ts).store.cacheAvailable = ts.store.cacheAvailable := by
  unfold updateSession
  rcases hdb : ts.store.dbAvailable with _ | _ <;>
    rcases hc : ts.store.cacheAvailable with _ | _ <;>
      simp [hdb, hc, getOrCreate_cacheAvailable]

theorem updateSession_store (step m : String) (D' : JObj) (ts : TurnState)
    (h1 : ts.store.dbAvailable = true) (h2 : ts.store.cacheAvailable = true)
    (hnd : (jkeys D').Nodup) :
    (updateSession step m (some D') ts).store =
      ⟨true, some ⟨step, m, some D'⟩, true, some ⟨step, m, some D'⟩⟩ := by
  unfold updateSession getOrCreateSession cachePut
  simp [h1, h2, jmerge_self D' hnd]

theorem updateClienteData_store (k : String) (v : JVal) (ts : TurnState)
    (step m : String) (D : JObj)
    (h1 : ts.store.dbAvailable = true) (h2 : ts.store.cacheAvailable = true)
    (hcache : ts.store.cache = some ⟨step, m, some D⟩) (hnd : (jkeys D).Nodup) :
    (updateClienteData k v ts).store =
      ⟨true, some ⟨step, m, some (clienteStep D (k, v))⟩,
        true, some ⟨step, m, some (clienteStep D (k, v))⟩⟩ := by
  unfold updateClienteData
  rw [getOrCreate_cacheHit ts ⟨step, m, some D⟩ h2 hcache]
  exact updateSession_store step m (clienteStep D (k, v)) ts h1 h2
    (nodup_jkeys_jset D "clienteData" _ hnd)

theorem updatePackageData_store (k : String) (v : JVal) (ts : TurnState)
    (step m : String) (D : JObj)
    (h1 : ts.store.dbAvailable = true) (h2 : ts.store.cacheAvailable = true)
    (hcache : ts.store.cache = some ⟨step, m, some D⟩) (hnd : (jkeys D).Nodup) :
    (updatePackageData k v ts).store =
      ⟨true, some ⟨step, m, some (pacoteStep D (k, v))⟩,
        true, some ⟨step, m, some (pacoteStep D (k, v))⟩⟩ := by
  unfold updatePackageData
  rw [getOrCreate_cacheHit ts ⟨step, m, some D⟩ h2 hcache]
  exact updateSession_store step m (pacoteStep D (k, v)) ts h1 h2
    (nodup_jkeys_jset D "pacoteData" _ hnd)

theorem clienteOf_clienteStep (D : JObj) (kv : String × JVal) :
    clienteOf (clienteStep D kv) = jset (clienteOf D) kv.1 kv.2 := by
  simp [clienteOf, clienteStep, jgetObj, jget_jset_self]

theorem pacoteOf_pacoteStep (D : JObj) (kv : String × JVal) :
    pacoteOf (pacoteStep D kv) = jset (pacoteOf D) kv.1 kv.2 := by
  simp [pacoteOf, pacoteStep, jgetObj, jget_jset_self]

theorem nodup_clienteStep (D : JObj) (kv : String × JVal) (h : (jkeys D).Nodup) :
    (jkeys (clienteStep D kv)).Nodup :=
  nodup_jkeys_jset D "clienteData" _ h

theorem storeOk_applyClienteWrites (ws : List (String × JVal)) :
    ∀ (ts : TurnState) (D : JObj), StoreOk ts.store D →
      StoreOk ((applyClienteWrites ws ts).store) (ws.foldl clienteStep D) := by
  induction ws with
  | nil => intro ts D h; exact h
  | cons kv rest ih =>
      intro ts D h
      obtain ⟨h1, h2, ⟨step, m, hcache, hdbr⟩, hnd⟩ := h
      have hst := updateClienteData_store kv.1 kv.2 ts step m D h1 h2 hcache hnd
      have hok' : StoreOk ((updateClienteData kv.1 kv.2 ts).store) (clienteStep D kv) := by
        rw [hst]
        exact ⟨rfl, rfl, ⟨step, m, rfl, rfl⟩, nodup_clienteStep D kv hnd⟩
      show StoreOk ((applyClienteWrites rest (updateClienteData kv.1 kv.2 ts)).store)
        (rest.foldl clienteStep (clienteStep D kv))
      exact ih (updateClienteData kv.1 kv.2 ts) (clienteStep D kv) hok'

theorem clienteOf_foldl (ws : List (String × JVal)) :
    ∀ D : JObj, clienteOf (ws.foldl clienteStep D) = setFold (clienteOf D) ws := by
  induction ws with
  | nil => intro D; rfl
  | cons kv rest ih =>
      intro D
      show clienteOf (rest.foldl clienteStep (clienteStep D kv)) =
        setFold (clienteOf D) (kv :: rest)
      rw [ih (clienteStep D kv), clienteOf_clienteStep]
      rfl

/-! ## Claim C1 -/

/-- **C1** (corrected, counterexample part): the claim as frozen fails for
raw `updateSession` calls.  Starting from a healthy store, two
`updateSession` calls whose partial-data arguments have disjoint keys
(`{a: 1}` then `{b: 2}`) leave a final state in which the key `a` is
present in neither the durable record nor the cache: the durable upsert
replaces the whole `context` column and the repopulated cache merges the
new data over the just-replaced durable state. -/
theorem updateSession_wholesale_replace_cex :
    let ts1 := updateSession "s1" "m1" (some [("a", JVal.vNum 1)])
      ⟨⟨true, some ⟨"welcome", "", none⟩, true, none⟩, []⟩
    let ts2 := updateSession "s2" "m2" (some [("b", JVal.vNum 2)]) ts1
    ((dbData ts2.store).bind (fun d => jget d "a")).isNone = true ∧
    ((cacheDataOf ts2.store).bind (fun d => jget d "a")).isNone = true ∧
    (dbData ts2.store).bind (fun d => jgetNum d "b") = some 2 ∧
    (cacheDataOf ts2.store).bind (fun d => jgetNum d "b") = some 2 := by
  decide

/-- **C1** (amended): the merge invariant holds for the data-writing path
the engine actually uses.  For any sequence of `updateClienteData` calls
with pairwise-disjoint keys starting from a healthy store, the final
durable record and cache agree, and the accumulated `clienteData` contains
every written key with its written value while every key not written is
untouched. -/
theorem clienteData_merge_union (ws : List (String × JVal)) (ts : TurnState) (D : JObj)
    (hok : StoreOk ts.store D) (hnd : (ws.map Prod.fst).Nodup) :
    dbData ((applyClienteWrites ws ts).store) = some (ws.foldl clienteStep D) ∧
    cacheDataOf ((applyClienteWrites ws ts).store) = some (ws.foldl clienteStep D) ∧
    clienteOf (ws.foldl clienteStep D) = setFold (clienteOf D) ws ∧
    (∀ kv ∈ ws, jget (setFold (clienteOf D) ws) kv.1 = some kv.2) ∧
    (∀ k, k ∉ ws.map Prod.fst → jget (setFold (clienteOf D) ws) k = jget (clienteOf D) k) := by
  obtain ⟨_, _, ⟨step, m, hcache, hdbr⟩, _⟩ := storeOk_applyClienteWrites ws ts D hok
  refine ⟨?_, ?_, clienteOf_foldl ws D, ?_, ?_⟩
  · simp [dbData, hdbr]
  · simp [cacheDataOf, hcache]
  · intro kv hkv
    exact jget_setFold_mem ws (clienteOf D) hnd kv.1 kv.2 hkv
  · intro k hk
    exact jget_setFold_not_mem ws (clienteOf D) k hk

/-- Witness for C1: the amended theorem applied to a concrete healthy store
and two disjoint writes. -/
theorem clienteData_merge_union_witness :
    StoreOk mergeStore mergeD ∧ ((mergeWrites.map Prod.fst).Nodup) ∧
    (dbData ((applyClienteWrites mergeWrites ⟨mergeStore, []⟩).store) =
        some (mergeWrites.foldl clienteStep mergeD) ∧
      cacheDataOf ((applyClienteWrites mergeWrites ⟨mergeStore, []⟩).store) =
        some (mergeWrites.foldl clienteStep mergeD) ∧
      clienteOf (mergeWrites.foldl clienteStep mergeD) =
        setFold (clienteOf mergeD) mergeWrites ∧
      (∀ kv ∈ mergeWrites,
        jget (setFold (clienteOf mergeD) mergeWrites) kv.1 = some kv.2) ∧
      (∀ k, k ∉ mergeWrites.map Prod.fst →
        jget (setFold (clienteOf mergeD) mergeWrites) k = jget (clienteOf mergeD) k)) :=
  have hok : StoreOk mergeStore mergeD :=
    ⟨rfl, rfl, ⟨"s", "m", rfl, rfl⟩, by decide⟩
  ⟨hok, by decide,
    clienteData_merge_union mergeWrites ⟨mergeStore, []⟩ mergeD hok (by decide)⟩

/-! ## Claim C2 -/

/-- **C2** (code bug): the guard fails **closed**, not open.  When the cache
store backing the idempotency, debounce and lock checks is unavailable,
`setIfNotExists` returns `false`, which every guard check treats as
"already seen, discard"; hence no inbound webhook event whatsoever reaches
the Conversation Engine during a store outage — the opposite of the
specified fail-open behaviour. -/
theorem guard_fails_closed_on_store_outage (p : Payload) (g : GuardStore)
    (h : g.available = false) :
    (handleWebhook p g).1 ≠ WebhookOutcome.processed := by
  have hset : ∀ k, setIfNotExists k g = (false, g) := by
    intro k
    simp [setIfNotExists, h]
  unfold handleWebhook guardDebouncePhase
  by_cases h1 : p.phone = "" ∨ p.ptype = ""
  · simp [h1]
  · by_cases h2 : p.fromMe
    · simp [h1, h2]
    · cases hmid : p.messageId with
      | none => simp [h1, h2, hmid, hset]
      | some mid =>
          by_cases h3 : mid = ""
          · simp [h1, h2, hmid, h3, hset]
          · simp [h1, h2, hmid, h3, hset]

/-- Witness for C2: on a concrete valid text event carrying a message id,
an unavailable store makes the controller discard the event as a duplicate
delivery (`deduped`), so the engine is never invoked. -/
theorem guard_fails_closed_on_store_outage_witness :
    gOutage.available = false ∧
    (handleWebhook pOutage gOutage).1 = WebhookOutcome.deduped ∧
    (handleWebhook pOutage gOutage).1 ≠ WebhookOutcome.processed :=
  ⟨rfl, by decide, guard_fails_closed_on_store_outage pOutage gOutage rfl⟩

/-! ## Claim C3 -/

/-- **C3** (confirmed): strict menu matching in `main_menu`.  Input `"1"`
transitions to `contract_cpf`; input `"hello"` yields a null transition;
any non-null transition requires either exact trimmed equality with a menu
id/command or the explicitly marked attendant/support free-text fallback
(`atendente`/`suporte`/`7`/`support`); and a `hello` turn at `main_menu`
performs no outbound send and no session update — the store is returned
unchanged with only the inbound log recorded. -/
theorem main_menu_strict_matching :
    (handleMainMenu "1").map ConvStep.step = some "contract_cpf" ∧
    handleMainMenu "hello" = none ∧
    (∀ m : String, handleMainMenu m ≠ none →
      jsTrim m = "1" ∨ jsTrim m = "contract" ∨ jsTrim m = "2" ∨ jsTrim m = "billing" ∨
      jsTrim m = "3" ∨ jsTrim m = "editing" ∨ jsTrim m = "4" ∨ jsTrim m = "admin" ∨
      jsTrim m = "5" ∨ jsTrim m = "quote" ∨ jsTrim m = "6" ∨ jsTrim m = "meeting" ∨
      jsIncludes m "atendente" = true ∨ jsIncludes m "suporte" = true ∨
      jsIncludes m "7" = true ∨ m = "support") ∧
    (∀ (env : Env) (lm : String) (d : Option JObj) (st : Store),
      st.cacheAvailable = true → st.cache = some ⟨"main_menu", lm, d⟩ →
      processIncomingMessage env pHello ⟨st, []⟩ =
        (⟨st, if st.dbAvailable then [Eff.logIncoming "hello"] else []⟩, none)) := by
  refine ⟨rfl, by decide, ?_, ?_⟩
  · intro m hm
    simp only [handleMainMenu] at hm
    split_ifs at hm with h1 h2 h3 h4 h5 h6 h7
    · tauto
    · tauto
    · tauto
    · tauto
    · tauto
    · tauto
    · simp at h7
      tauto
    · exact absurd rfl hm
  · intro env lm d st h1 h2
    have hmm : handleMainMenu (jsTrim (jsToLower "hello")) = none := by decide
    unfold processIncomingMessage runTurn
    have hcontent : msgContentOf pHello = "hello" := rfl
    rw [hcontent]
    unfold logIncomingMsg
    cases hdb : st.dbAvailable with
    | true =>
        simp only [hdb, if_true]
        rw [getOrCreate_cacheHit ⟨st, [Eff.logIncoming "hello"]⟩ ⟨"main_menu", lm, d⟩ h1 h2]
        simp [determineResponse, hmm]
    | false =>
        simp only [hdb]
        rw [if_neg Bool.false_ne_true]
        rw [getOrCreate_cacheHit ⟨st, []⟩ ⟨"main_menu", lm, d⟩ h1 h2]
        simp [determineResponse, hmm]

/-- Witness for C3: the strictness characterization applied at input `"1"`
and the null-transition turn applied at a concrete healthy store. -/
theorem main_menu_strict_matching_witness :
    (jsTrim "1" = "1" ∨ jsTrim "1" = "contract" ∨ jsTrim "1" = "2" ∨ jsTrim "1" = "billing" ∨
      jsTrim "1" = "3" ∨ jsTrim "1" = "editing" ∨ jsTrim "1" = "4" ∨ jsTrim "1" = "admin" ∨
      jsTrim "1" = "5" ∨ jsTrim "1" = "quote" ∨ jsTrim "1" = "6" ∨ jsTrim "1" = "meeting" ∨
      jsIncludes "1" "atendente" = true ∨ jsIncludes "1" "suporte" = true ∨
      jsIncludes "1" "7" = true ∨ "1" = "support") ∧
    processIncomingMessage envW pHello ⟨stMainMenu, []⟩ =
      (⟨stMainMenu, [Eff.logIncoming "hello"]⟩, none) :=
  ⟨main_menu_strict_matching.2.2.1 "1" (by decide),
    main_menu_strict_matching.2.2.2 envW "" none stMainMenu rfl rfl⟩

/-! ## Claim C4 -/

/-- **C4** (code bug): no upper bound on the installment count.  With the
cohort configuration allowing at most 6 installments, the inbound message
`"100"` at `carne_parcelas` is accepted: the payment backend is called with
`parcelas = 100` (and the standard due date), and the flow proceeds to the
confirmation / `main_menu` response instead of re-prompting with the
bounded option list.  `handleCarneParcelas` only checks
`isNaN(parcelas) || parcelas < 1`. -/
theorem carne_parcelas_no_upper_bound :
    envCarne.configTurma = some ⟨77, some 6⟩ ∧
    parseIntJS "100" = some 100 ∧
    (handleCarneParcelas envCarne "100" tsCarne).1.trace.filterMap carneReqOf =
      [(40, 100, calcularVencimentoPadrao envCarne.today)] ∧
    (handleCarneParcelas envCarne "100" tsCarne).2.map ConvStep.step = some "main_menu" := by
  refine ⟨rfl, by decide, by decide, by decide⟩

/-! ## Claim C5 -/

/-- **C5** (confirmed): package selection by position.  In a healthy
session with customer data and a cohort configuration present, given a
non-empty catalog and a non-empty parsed selection: if any parsed position
lies outside `[1, length]`, the whole selection is rejected — the reply
names exactly the invalid positions, the target step stays
`package_selection`, and the store is untouched (only the catalog fetch is
recorded); if all positions are in range, the flow advances to
`package_confirmation` and stores `valorTotal` equal to the sum of the
selected items' values. -/
theorem package_selection_position_bounds :
    ∀ (env : Env) (m : String) (ts : TurnState) (step lm : String) (D : JObj),
      ts.store.dbAvailable = true → ts.store.cacheAvailable = true →
      ts.store.cache = some ⟨step, lm, some D⟩ → (jkeys D).Nodup →
      (jgetObj D "clienteData").isSome = true →
      ((jget (pacoteOf D) "configuracaoTurmaId").map jtruthy).getD false = true →
      let itens := if env.itensApi.isEmpty then env.itensDb else env.itensApi
      let numeros := (splitComma (removeWS m)).filterMap parseIntJS
      let invalidos := numeros.filter (fun n => n < 1 ∨ n > (itens.length : Int))
      itens ≠ [] → numeros ≠ [] →
      (invalidos ≠ [] →
        handlePackageSelection env m ts =
          ({ ts with trace := Eff.itensFetch :: ts.trace },
            some { step := "package_selection"
                   message := "❌ Número(s) inválido(s): " ++ joinCommaInts invalidos
                     ++ "\n\nPor favor, escolha números entre 1 e "
                     ++ toString itens.length ++ "."
                   optionList := none })) ∧
      (invalidos = [] →
        let sel := numeros.map (fun n => itens.getD (n - 1).toNat ⟨"", none⟩)
        let total := (sel.map (fun it => jsOrNum it.valor 0)).foldl ratAdd 0
        let D2 := pacoteStep
          (pacoteStep D ("itensSelecionados", JVal.vArr (sel.map itemToJVal)))
          ("valorTotal", JVal.vNum total)
        (handlePackageSelection env m ts).1.store =
          ⟨true, some ⟨step, lm, some D2⟩, true, some ⟨step, lm, some D2⟩⟩ ∧
        (handlePackageSelection env m ts).2.map ConvStep.step = some "package_confirmation" ∧
        jgetNum (pacoteOf D2) "valorTotal" = some total) := by
  intro env m ts step lm D hdb hca hcache hnd hcli hcfg itens numeros invalidos hit hnum
  have hget := getOrCreate_cacheHit ts ⟨step, lm, some D⟩ hca hcache
  obtain ⟨P, hP⟩ : ∃ P, jgetObj D "pacoteData" = some P := by
    cases hpo : jgetObj D "pacoteData" with
    | some P => exact ⟨P, rfl⟩
    | none =>
        exfalso
        rw [pacoteOf, hpo] at hcfg
        simp [jget] at hcfg
  have hcli' : ∃ C, jgetObj D "clienteData" = some C := by
    cases h : jgetObj D "clienteData" with
    | some C => exact ⟨C, rfl⟩
    | none => rw [h] at hcli; simp at hcli
  obtain ⟨C, hC⟩ := hcli'
  have hcfg' : ((jget P "configuracaoTurmaId").map jtruthy).getD false = true := by
    rw [pacoteOf, hP] at hcfg
    exact hcfg
  have hit' : itens.isEmpty = false := by
    cases h : itens with
    | nil => exact absurd h hit
    | cons a l => rfl
  have hnum' : numeros.isEmpty = false := by
    cases h : numeros with
    | nil => exact absurd h hnum
    | cons a l => rfl
  have hitE : (if env.itensApi.isEmpty = true then env.itensDb else env.itensApi).isEmpty = false := hit'
  have hnumE : ((splitComma (removeWS m)).filterMap parseIntJS).isEmpty = false := hnum'
  constructor
  · intro hinv
    have hinvE : ((List.filterMap parseIntJS (splitComma (removeWS m))).filter
        (fun n => n < 1 ∨ n > ((if env.itensApi.isEmpty = true then env.itensDb else env.itensApi).length : Int))).isEmpty = false := by
      show invalidos.isEmpty = false
      cases h : invalidos with
      | nil => exact absurd h hinv
      | cons a l => rfl
    simp only [handlePackageSelection, hget]
    simp only [Option.some_bind, hC, hP]
    rw [if_neg (by rw [not_or]; exact ⟨by simp, by rw [hcfg']; simp⟩)]
    rw [if_neg (by rw [hitE]; decide)]
    rw [if_neg (by rw [hnumE]; decide)]
    rw [if_pos hinvE]
  · intro hinv
    have hinvE : ((List.filterMap parseIntJS (splitComma (removeWS m))).filter
        (fun n => n < 1 ∨ n > ((if env.itensApi.isEmpty = true then env.itensDb else env.itensApi).length : Int))).isEmpty = true := by
      show invalidos.isEmpty = true
      rw [hinv]
      rfl
    intro sel total D2
    simp only [handlePackageSelection, hget]
    simp only [Option.some_bind, hC, hP]
    rw [if_neg (by rw [not_or]; exact ⟨by simp, by rw [hcfg']; simp⟩)]
    rw [if_neg (by rw [hitE]; decide)]
    rw [if_neg (by rw [hnumE]; decide)]
    rw [if_neg (by rw [hinvE]; decide)]
    have h1 := updatePackageData_store "itensSelecionados"
      (JVal.vArr (sel.map itemToJVal))
      ({ store := ts.store, trace := Eff.itensFetch :: ts.trace }) step lm D hdb hca hcache hnd
    have hnd1 : (jkeys (pacoteStep D ("itensSelecionados", JVal.vArr (sel.map itemToJVal)))).Nodup :=
      nodup_jkeys_jset D "pacoteData" _ hnd
    have h2 := updatePackageData_store "valorTotal" (JVal.vNum total)
      (updatePackageData "itensSelecionados" (JVal.vArr (sel.map itemToJVal))
        ({ store := ts.store, trace := Eff.itensFetch :: ts.trace })) step lm
      (pacoteStep D ("itensSelecionados", JVal.vArr (sel.map itemToJVal)))
      (by rw [h1]) (by rw [h1]) (by rw [h1]) hnd1
    refine ⟨h2, rfl, ?_⟩
    rw [pacoteOf_pacoteStep]
    simp [jgetNum, jget_jset_self]

/-- Witness for C5: rejection of `"1,4"` (invalid position 4 named, state
kept) and acceptance of `"1,3"` (total `40.00`) against the 3-item catalog
priced 10.00/20.00/30.00. -/
theorem package_selection_position_bounds_witness :
    (handlePackageSelection envPkg "1,4" tsPkg =
      ({ tsPkg with trace := Eff.itensFetch :: tsPkg.trace },
        some { step := "package_selection"
               message := "❌ Número(s) inválido(s): 4\n\nPor favor, escolha números entre 1 e 3."
               optionList := none })) ∧
    ((handlePackageSelection envPkg "1,3" tsPkg).2.map ConvStep.step =
      some "package_confirmation") ∧
    ((dbData (handlePackageSelection envPkg "1,3" tsPkg).1.store).bind
      (fun d => jgetNum (pacoteOf d) "valorTotal") = some 40) ∧
    ((cacheDataOf (handlePackageSelection envPkg "1,3" tsPkg).1.store).bind
      (fun d => jgetNum (pacoteOf d) "valorTotal") = some 40) := by
  refine ⟨?_, ?_, by decide, by decide⟩
  · exact (package_selection_position_bounds envPkg "1,4" tsPkg "package_selection" "" pkgD
      rfl rfl rfl (by decide) (by decide) (by decide) (by decide) (by decide)).1 (by decide)
  · exact ((package_selection_position_bounds envPkg "1,3" tsPkg "package_selection" "" pkgD
      rfl rfl rfl (by decide) (by decide) (by decide) (by decide) (by decide)).2 (by decide)).2.1

/-! ## Claim C6 -/

theorem cpfSum1_congr (d e : List Nat) (h : ∀ i, i < 9 → d.getD i 0 = e.getD i 0) :
    cpfSum1 d = cpfSum1 e := by
  unfold cpfSum1
  congr 1
  apply List.map_congr_left
  intro i hi
  rw [List.mem_range] at hi
  rw [h i hi]

theorem cpfSum2_congr (d e : List Nat) (h : ∀ i, i < 10 → d.getD i 0 = e.getD i 0) :
    cpfSum2 d = cpfSum2 e := by
  unfold cpfSum2
  congr 1
  apply List.map_congr_left
  intro i hi
  rw [List.mem_range] at hi
  rw [h i hi]

theorem allSameEleven_replicate (x : Nat) :
    allSameEleven (List.replicate 11 x) = true := by
  simp [allSameEleven, List.replicate, List.all_eq_true, List.mem_replicate]

/-- **C6** (confirmed): the CPF validator rejects every eleven-repeated-digit
string, accepts the known-valid CPF `11144477735`, and rejects any 11-digit
string obtained from a valid CPF by altering either of the two checksum
digits (positions 10 and 11). -/
theorem isValidCPF_spec :
    (∀ x : Nat, x ≤ 9 → isValidCPFDigits (List.replicate 11 x) = false) ∧
    isValidCPF "11144477735" = true ∧
    (∀ d e : List Nat, d.length = 11 → e.length = 11 →
      (∀ i, i < 9 → d.getD i 0 = e.getD i 0) →
      isValidCPFDigits d = true → e.getD 9 0 ≠ d.getD 9 0 →
      isValidCPFDigits e = false) ∧
    (∀ d e : List Nat, d.length = 11 → e.length = 11 →
      (∀ i, i < 10 → d.getD i 0 = e.getD i 0) →
      isValidCPFDigits d = true → e.getD 10 0 ≠ d.getD 10 0 →
      isValidCPFDigits e = false) := by
  refine ⟨?_, by decide, ?_, ?_⟩
  · intro x _
    unfold isValidCPFDigits
    rw [if_pos (allSameEleven_replicate x)]
  · intro d e _ _ hagree hvalid hne
    unfold isValidCPFDigits at hvalid ⊢
    cases hsd : allSameEleven d with
    | true => rw [hsd] at hvalid; simp at hvalid
    | false =>
        rw [hsd] at hvalid
        rw [if_neg Bool.false_ne_true] at hvalid
        simp only [Bool.and_eq_true, decide_eq_true_eq] at hvalid
        by_cases hse : allSameEleven e
        · rw [if_pos hse]
        · rw [if_neg hse]
          have h1 : cpfDigit1 e = cpfDigit1 d := by
            unfold cpfDigit1
            rw [cpfSum1_congr e d (fun i hi => (hagree i hi).symm)]
          have hne1 : ¬(cpfDigit1 e = e.getD 9 0) := by
            rw [h1, hvalid.1]
            exact fun hh => hne hh.symm
          rw [decide_eq_false hne1, Bool.false_and]
  · intro d e _ _ hagree hvalid hne
    unfold isValidCPFDigits at hvalid ⊢
    cases hsd : allSameEleven d with
    | true => rw [hsd] at hvalid; simp at hvalid
    | false =>
        rw [hsd] at hvalid
        rw [if_neg Bool.false_ne_true] at hvalid
        simp only [Bool.and_eq_true, decide_eq_true_eq] at hvalid
        by_cases hse : allSameEleven e
        · rw [if_pos hse]
        · rw [if_neg hse]
          have h2 : cpfDigit2 e = cpfDigit2 d := by
            unfold cpfDigit2
            rw [cpfSum2_congr e d (fun i hi => (hagree i hi).symm)]
          have hne2 : ¬(cpfDigit2 e = e.getD 10 0) := by
            rw [h2, hvalid.2]
            exact fun hh => hne hh.symm
          rw [decide_eq_false hne2, Bool.and_false]

/-- Witness for C6: the repeated-digit case at digit 1 and the two
altered-checksum cases on the valid CPF `11144477735`. -/
theorem isValidCPF_spec_witness :
    isValidCPFDigits (List.replicate 11 1) = false ∧
    isValidCPFDigits [1, 1, 1, 4, 4, 4, 7, 7, 7, 4, 5] = false ∧
    isValidCPFDigits [1, 1, 1, 4, 4, 4, 7, 7, 7, 3, 6] = false :=
  ⟨isValidCPF_spec.1 1 (by decide),
    isValidCPF_spec.2.2.1 [1, 1, 1, 4, 4, 4, 7, 7, 7, 3, 5]
      [1, 1, 1, 4, 4, 4, 7, 7, 7, 4, 5]
      (by decide) (by decide) (by decide) (by decide) (by decide),
    isValidCPF_spec.2.2.2 [1, 1, 1, 4, 4, 4, 7, 7, 7, 3, 5]
      [1, 1, 1, 4, 4, 4, 7, 7, 7, 3, 6]
      (by decide) (by decide) (by decide) (by decide) (by decide)⟩

/-! ## Claim C7 -/

/-- **C7** (confirmed): retry-limited cohort lookup.  In a healthy session,
every failed cohort-code lookup on a non-empty submission writes
`tentativasTurma + 1` into both the durable record and the cache; when the
incremented counter reaches 3 the engine returns the human-support handoff
response (`getSupportStep`, whose target step is `main_menu`, so the
session leaves `contract_class_code` regardless of any further input),
and below 3 it re-prompts in the same step. -/
theorem class_code_retry_escalation :
    ∀ (env : Env) (m : String) (ts : TurnState) (D : JObj),
      StoreOk ts.store D → jsTrim m ≠ "" →
      env.checkTurmaExists (jsTrim m) = none →
      let tent := ratAdd (jsOrNum (jgetNum D "tentativasTurma") 0) 1
      (dbData (handleClassCode env m ts).1.store =
          some (jset D "tentativasTurma" (JVal.vNum tent)) ∧
        cacheDataOf (handleClassCode env m ts).1.store =
          some (jset D "tentativasTurma" (JVal.vNum tent))) ∧
      ((3 : Rat) ≤ tent → (handleClassCode env m ts).2 = some getSupportStep) ∧
      (tent < 3 → (handleClassCode env m ts).2 =
        some { step := "contract_class_code"
               message := "❌ Código da turma não encontrado. Verifique o código e tente novamente.\n\nDigite o código da sua turma:"
               optionList := none }) ∧
      getSupportStep.step = "main_menu" := by
  intro env m ts D hok hm hlook tent
  obtain ⟨hdb, hca, ⟨step, msg, hcache, hdbr⟩, hnd⟩ := hok
  have key : handleClassCode env m ts =
      (if ratLe 3 tent = true then
        (updateSession "contract_class_code" m
            (some (jset D "tentativasTurma" (JVal.vNum tent)))
            { store := ts.store, trace := Eff.turmaFetch (jsTrim m) :: ts.trace },
          some getSupportStep)
      else
        (updateSession "contract_class_code" m
            (some (jset D "tentativasTurma" (JVal.vNum tent)))
            { store := ts.store, trace := Eff.turmaFetch (jsTrim m) :: ts.trace },
          some { step := "contract_class_code"
                 message := "❌ Código da turma não encontrado. Verifique o código e tente novamente.\n\nDigite o código da sua turma:"
                 optionList := none })) := by
    simp only [handleClassCode]
    rw [if_neg hm, hlook]
    rw [getOrCreate_cacheHit
      { store := ts.store, trace := Eff.turmaFetch (jsTrim m) :: ts.trace }
      ⟨step, msg, some D⟩ hca hcache]
    rfl
  have hst := updateSession_store "contract_class_code" m
    (jset D "tentativasTurma" (JVal.vNum tent))
    { store := ts.store, trace := Eff.turmaFetch (jsTrim m) :: ts.trace }
    hdb hca (nodup_jkeys_jset D "tentativasTurma" _ hnd)
  refine ⟨?_, ?_, ?_, rfl⟩
  · rw [key]
    cases hr : ratLe 3 tent with
    | true =>
        rw [if_pos (Eq.refl true)]
        constructor
        · show dbData (updateSession "contract_class_code" m
            (some (jset D "tentativasTurma" (JVal.vNum tent)))
            { store := ts.store, trace := Eff.turmaFetch (jsTrim m) :: ts.trace }).store = _
          rw [hst]; rfl
        · show cacheDataOf (updateSession "contract_class_code" m
            (some (jset D "tentativasTurma" (JVal.vNum tent)))
            { store := ts.store, trace := Eff.turmaFetch (jsTrim m) :: ts.trace }).store = _
          rw [hst]; rfl
    | false =>
        rw [if_neg Bool.false_ne_true]
        constructor
        · show dbData (updateSession "contract_class_code" m
            (some (jset D "tentativasTurma" (JVal.vNum tent)))
            { store := ts.store, trace := Eff.turmaFetch (jsTrim m) :: ts.trace }).store = _
          rw [hst]; rfl
        · show cacheDataOf (updateSession "contract_class_code" m
            (some (jset D "tentativasTurma" (JVal.vNum tent)))
            { store := ts.store, trace := Eff.turmaFetch (jsTrim m) :: ts.trace }).store = _
          rw [hst]; rfl
  · intro hge
    rw [key, if_pos ((ratLe_iff 3 tent).mpr hge)]
  · intro hlt
    have hrf : ratLe 3 tent = false := by
      cases h : ratLe 3 tent with
      | false => rfl
      | true => exact absurd ((ratLe_iff 3 tent).mp h) (not_le.mpr hlt)
    rw [key, if_neg (by rw [hrf]; decide)]

/-- Witness for C7: with two failed attempts already recorded, a third
failing submission escalates to the support handoff. -/
theorem class_code_retry_escalation_witness :
    StoreOk tsCC.store ccD ∧
    jsTrim "turma-x" ≠ "" ∧
    envW.checkTurmaExists (jsTrim "turma-x") = none ∧
    (3 : Rat) ≤ ratAdd (jsOrNum (jgetNum ccD "tentativasTurma") 0) 1 ∧
    (handleClassCode envW "turma-x" tsCC).2 = some getSupportStep :=
  have hok : StoreOk tsCC.store ccD :=
    ⟨rfl, rfl, ⟨"contract_class_code", "", rfl, rfl⟩, by decide⟩
  have hge : (3 : Rat) ≤ ratAdd (jsOrNum (jgetNum ccD "tentativasTurma") 0) 1 :=
    (ratLe_iff _ _).mp (by decide)
  ⟨hok, by decide, rfl, hge,
    (class_code_retry_escalation envW "turma-x" tsCC ccD hok (by decide) rfl).2.1 hge⟩

/-! ## Claim C9 -/

/-- **C9** (confirmed): billing CPF fallback from the session.  At
`billing_cpf`: when the inbound text lacks exactly 11 digits but the stored
`clienteData.cpf` has 11 digits after stripping, the customer lookup runs
on the stored CPF and the turn proceeds to `main_menu` (no re-prompt); when
the inbound text itself has 11 digits they are used directly; and the
re-prompt reply is produced exactly when both the input and the stored
session CPF lack 11 digits. -/
theorem billing_cpf_session_fallback :
    (∀ (env : Env) (m lm : String) (ts : TurnState) (D : JObj) (c : String),
      ts.store.cacheAvailable = true →
      ts.store.cache = some ⟨"billing_cpf", lm, some D⟩ →
      (stripNonDigits m).length ≠ 11 →
      (jgetObj D "clienteData").bind (fun cd => jgetStr cd "cpf") = some c →
      c ≠ "" → (stripNonDigits c).length = 11 →
      (handleBillingCpf env m ts).1.trace = Eff.cpfFetch (stripNonDigits c) :: ts.trace ∧
      (handleBillingCpf env m ts).2.map ConvStep.step = some "main_menu") ∧
    (∀ (env : Env) (m lm : String) (ts : TurnState) (D : JObj),
      ts.store.cacheAvailable = true →
      ts.store.cache = some ⟨"billing_cpf", lm, some D⟩ →
      (stripNonDigits m).length = 11 →
      (handleBillingCpf env m ts).1.trace = Eff.cpfFetch (stripNonDigits m) :: ts.trace ∧
      (handleBillingCpf env m ts).2.map ConvStep.step = some "main_menu") ∧
    (∀ (env : Env) (m lm : String) (ts : TurnState) (D : JObj),
      ts.store.cacheAvailable = true →
      ts.store.cache = some ⟨"billing_cpf", lm, some D⟩ →
      (stripNonDigits m).length ≠ 11 →
      (∀ c, (jgetObj D "clienteData").bind (fun cd => jgetStr cd "cpf") = some c →
        c = "" ∨ (stripNonDigits c).length ≠ 11) →
      handleBillingCpf env m ts =
        (ts, some { step := "billing_cpf"
                    message := "Por favor, informe um CPF válido com 11 dígitos (apenas números)."
                    optionList := none })) := by
  refine ⟨?_, ?_, ?_⟩
  · intro env m lm ts D c hca hcache hm hctx hc hclen
    have hget := getOrCreate_cacheHit ts ⟨"billing_cpf", lm, some D⟩ hca hcache
    simp only [handleBillingCpf, hget]
    rw [if_neg (show ¬(("billing_cpf" : String) ≠ "billing_cpf") from fun h => h rfl)]
    simp only [Option.some_bind, hctx]
    rw [if_pos hm]
    rw [if_pos (show c ≠ "" ∧ (stripNonDigits c).length = 11 from ⟨hc, hclen⟩)]
    rw [if_neg (show ¬((stripNonDigits c).length ≠ 11) from fun h => h hclen)]
    cases env.checkCpfExists (stripNonDigits c) <;> exact ⟨rfl, rfl⟩
  · intro env m lm ts D hca hcache hm
    have hget := getOrCreate_cacheHit ts ⟨"billing_cpf", lm, some D⟩ hca hcache
    simp only [handleBillingCpf, hget]
    rw [if_neg (show ¬(("billing_cpf" : String) ≠ "billing_cpf") from fun h => h rfl)]
    rw [if_neg (show ¬((stripNonDigits m).length ≠ 11) from fun h => h hm)]
    rw [if_neg (show ¬((stripNonDigits m).length ≠ 11) from fun h => h hm)]
    cases env.checkCpfExists (stripNonDigits m) <;> exact ⟨rfl, rfl⟩
  · intro env m lm ts D hca hcache hm hbad
    have hget := getOrCreate_cacheHit ts ⟨"billing_cpf", lm, some D⟩ hca hcache
    simp only [handleBillingCpf, hget]
    rw [if_neg (show ¬(("billing_cpf" : String) ≠ "billing_cpf") from fun h => h rfl)]
    cases hctx : (jgetObj D "clienteData").bind (fun cd => jgetStr cd "cpf") with
    | none =>
        simp only [Option.some_bind, hctx]
        rw [if_pos hm]
        rw [if_pos hm]
    | some c =>
        simp only [Option.some_bind, hctx]
        rw [if_pos hm]
        rcases hbad c hctx with hce | hcl
        · rw [if_neg (show ¬(c ≠ "" ∧ (stripNonDigits c).length = 11) from
            fun h => h.1 hce)]
          rw [if_pos hm]
        · rw [if_neg (show ¬(c ≠ "" ∧ (stripNonDigits c).length = 11) from
            fun h => hcl h.2)]
          rw [if_pos hm]

/-- Witness for C9: the free text `oi` with the stored CPF
`111.444.777-35` triggers a lookup on the stripped stored digits, while an
empty session re-prompts. -/
theorem billing_cpf_session_fallback_witness :
    ((handleBillingCpf envW "oi" tsBill).1.trace =
      Eff.cpfFetch "11144477735" :: tsBill.trace) ∧
    ((handleBillingCpf envW "oi" tsBill).2.map ConvStep.step = some "main_menu") ∧
    (handleBillingCpf envW "oi" tsBillEmpty =
      (tsBillEmpty, some { step := "billing_cpf"
                           message := "Por favor, informe um CPF válido com 11 dígitos (apenas números)."
                           optionList := none })) :=
  have h := billing_cpf_session_fallback.1 envW "oi" "" tsBill billD "111.444.777-35"
    rfl rfl (by decide) (by decide) (by decide) (by decide)
  ⟨h.1, h.2,
    billing_cpf_session_fallback.2.2 envW "oi" "" tsBillEmpty [] rfl rfl (by decide)
      (fun c hc => Option.noConfusion hc)⟩

/-! ## Claim C10 -/

/-- **C10** (confirmed): fixed first due date for installment plans.  Every
installment-plan request the engine sends to the payment backend carries
`vencimentoPrimeiraParcela = calcularVencimentoPadrao today`, i.e. exactly
the current date plus 7 days rendered as `YYYY-MM-DD` — independently of
the session contents, the message, and the chosen installment count, so
the conversation flow offers no way to choose a different due date.  The
concrete checks pin the rendering format. -/
theorem carne_first_due_date :
    (∀ (env : Env) (parcelas : Int) (ts : TurnState) (v : Rat) (n : Int) (s : String),
      Eff.carneReq v n s ∈ (processPaymentCarne env parcelas ts).1.trace →
      Eff.carneReq v n s ∈ ts.trace ∨ s = calcularVencimentoPadrao env.today) ∧
    (∀ t : Nat, calcularVencimentoPadrao t = formatISODate (t + 7)) ∧
    calcularVencimentoPadrao 20000 = "2024-10-11" ∧
    formatISODate 20000 = "2024-10-04" := by
  refine ⟨?_, fun t => rfl, by decide, by decide⟩
  intro env parcelas ts v n s hmem
  simp only [processPaymentCarne] at hmem
  split at hmem
  · split at hmem
    · simp only [List.mem_cons] at hmem
      rcases hmem with hhead | htail
      · right
        simp only [Eff.carneReq.injEq] at hhead
        exact hhead.2.2
      · left
        rw [getOrCreate_trace ts] at htail
        exact htail
    · simp only [List.mem_cons] at hmem
      rcases hmem with hhead | htail
      · right
        simp only [Eff.carneReq.injEq] at hhead
        exact hhead.2.2
      · left
        rw [getOrCreate_trace ts] at htail
        exact htail
  · left
    rw [getOrCreate_trace ts] at hmem
    exact hmem

/-- Witness for C10: the concrete 100-installment request of the C4 run
carries due date `2024-10-11` = day 20000 + 7 days. -/
theorem carne_first_due_date_witness :
    (Eff.carneReq 40 100 "2024-10-11" ∈ (processPaymentCarne envCarne 100 tsCarne).1.trace) ∧
    (Eff.carneReq 40 100 "2024-10-11" ∈ tsCarne.trace ∨
      "2024-10-11" = calcularVencimentoPadrao envCarne.today) :=
  have hm : Eff.carneReq 40 100 "2024-10-11" ∈
      (processPaymentCarne envCarne 100 tsCarne).1.trace := by decide
  ⟨hm, carne_first_due_date.1 envCarne 100 tsCarne 40 100 "2024-10-11" hm⟩

/-! ## Per-turn effect accounting (claim C8)

`TameStep` machinery: every handler of the dispatch table preserves the
availability flags and only appends non-messaging effects to the trace. -/

/-- `TameStep` is reflexive. -/
theorem tame_refl (ts : TurnState) : TameStep ts ts :=
  ⟨rfl, rfl, [], by simp, by simp⟩

/-- `TameStep` composes. -/
theorem tame_trans {a b c : TurnState} (h1 : TameStep a b) (h2 : TameStep b c) :
    TameStep a c := by
  obtain ⟨hd1, hc1, L1, ht1, hm1⟩ := h1
  obtain ⟨hd2, hc2, L2, ht2, hm2⟩ := h2
  refine ⟨hd2.trans hd1, hc2.trans hc1, L2 ++ L1, ?_, ?_⟩
  · rw [ht2, ht1, List.append_assoc]
  · intro e he
    rcases List.mem_append.mp he with h | h
    · exact hm2 e h
    · exact hm1 e h

/-- Appending one non-messaging effect is tame. -/
theorem tame_cons (e : Eff) (h : effMessaging e = false) (ts : TurnState) :
    TameStep ts ⟨ts.store, e :: ts.trace⟩ :=
  ⟨rfl, rfl, [e], by simp, by simp [h]⟩

/-- `getOrCreateSession` is tame. -/
theorem tame_getOrCreate (ts : TurnState) : TameStep ts (getOrCreateSession ts).2 :=
  ⟨getOrCreate_dbAvailable ts, getOrCreate_cacheAvailable ts, [],
    by simp [getOrCreate_trace], by simp⟩

/-- `updateSession` is tame: its only effect is a session update. -/
theorem tame_updateSession (step m : String) (d : Option JObj) (ts : TurnState) :
    TameStep ts (updateSession step m d ts) :=
  ⟨updateSession_dbAvailable step m d ts, updateSession_cacheAvailable step m d ts,
    [Eff.sessionUpdate step], by simp [updateSession_trace], by simp [effMessaging, isSendE, isLogIncomingE, isLogOutgoingE]⟩

/-- `updateClienteData` is tame. -/
theorem tame_updateClienteData (k : String) (v : JVal) (ts : TurnState) :
    TameStep ts (updateClienteData k v ts) := by
  unfold updateClienteData
  exact tame_trans (tame_getOrCreate ts) (tame_updateSession _ _ _ _)

/-- `updatePackageData` is tame. -/
theorem tame_updatePackageData (k : String) (v : JVal) (ts : TurnState) :
    TameStep ts (updatePackageData k v ts) := by
  unfold updatePackageData
  exact tame_trans (tame_getOrCreate ts) (tame_updateSession _ _ _ _)

/-- `handleContractCpf` is tame. -/
theorem tame_handleContractCpf (env : Env) (m : String) (ts : TurnState) :
    TameStep ts (handleContractCpf env m ts).1 := by
  simp only [handleContractCpf]
  repeat' split
  all_goals first
    | exact tame_refl ts
    | exact tame_trans (tame_updateClienteData _ _ ts) (tame_cons (Eff.cpfFetch _) rfl _)

/-- `handleClassCode` is tame. -/
theorem tame_handleClassCode (env : Env) (m : String) (ts : TurnState) :
    TameStep ts (handleClassCode env m ts).1 := by
  simp only [handleClassCode]
  repeat' split
  all_goals first
    | exact tame_refl ts
    | exact tame_trans (tame_cons (Eff.turmaFetch _) rfl ts) (tame_updateClienteData _ _ _)
    | exact tame_trans (tame_cons (Eff.turmaFetch _) rfl ts)
        (tame_trans (tame_getOrCreate _) (tame_updateSession _ _ _ _))

/-- `handlePackageSelection` is tame. -/
theorem tame_handlePackageSelection (env : Env) (m : String) (ts : TurnState) :
    TameStep ts (handlePackageSelection env m ts).1 := by
  simp only [handlePackageSelection]
  repeat' split
  all_goals first
    | exact tame_getOrCreate ts
    | exact tame_trans (tame_getOrCreate ts) (tame_cons Eff.itensFetch rfl _)
    | exact tame_trans (tame_getOrCreate ts)
        (tame_trans (tame_cons Eff.itensFetch rfl _)
          (tame_trans (tame_updatePackageData _ _ _) (tame_updatePackageData _ _ _)))

/-- `handleBillingCpf` is tame. -/
theorem tame_handleBillingCpf (env : Env) (m : String) (ts : TurnState) :
    TameStep ts (handleBillingCpf env m ts).1 := by
  simp only [handleBillingCpf]
  repeat' split
  all_goals first
    | exact tame_getOrCreate ts
    | exact tame_trans (tame_getOrCreate ts) (tame_getOrCreate _)
    | exact tame_trans (tame_getOrCreate ts)
        (tame_trans (tame_getOrCreate _) (tame_cons (Eff.cpfFetch _) rfl _))

/-- `processPaymentBoletoPix` is tame. -/
theorem tame_processPaymentBoletoPix (env : Env) (ts : TurnState) :
    TameStep ts (processPaymentBoletoPix env ts).1 := by
  simp only [processPaymentBoletoPix]
  repeat' split
  all_goals first
    | exact tame_getOrCreate ts
    | exact tame_trans (tame_getOrCreate ts) (tame_cons (Eff.boletoReq _) rfl _)

/-- `processPaymentCarne` is tame. -/
theorem tame_processPaymentCarne (env : Env) (parcelas : Int) (ts : TurnState) :
    TameStep ts (processPaymentCarne env parcelas ts).1 := by
  simp only [processPaymentCarne]
  repeat' split
  all_goals first
    | exact tame_getOrCreate ts
    | exact tame_trans (tame_getOrCreate ts) (tame_cons (Eff.carneReq _ _ _) rfl _)

/-- The invalid-installments branch of `handleCarneParcelas` is tame. -/
theorem tame_carneInvalidBranch (env : Env) (ts : TurnState) :
    TameStep ts (carneInvalidBranch env ts).1 := by
  simp only [carneInvalidBranch]
  repeat' split
  all_goals first
    | exact tame_getOrCreate ts
    | exact tame_trans (tame_getOrCreate ts) (tame_cons Eff.configFetch rfl _)

/-- `handlePaymentMethodSelection` is tame. -/
theorem tame_handlePaymentMethodSelection (env : Env) (m : String) (ts : TurnState) :
    TameStep ts (handlePaymentMethodSelection env m ts).1 := by
  simp only [handlePaymentMethodSelection]
  repeat' split
  all_goals first
    | exact tame_getOrCreate ts
    | exact tame_trans (tame_getOrCreate ts) (tame_cons Eff.configFetch rfl _)
    | exact tame_trans (tame_getOrCreate ts)
        (tame_trans (tame_cons Eff.configFetch rfl _) (tame_processPaymentBoletoPix _ _))

/-- `handleCarneParcelas` is tame. -/
theorem tame_handleCarneParcelas (env : Env) (m : String) (ts : TurnState) :
    TameStep ts (handleCarneParcelas env m ts).1 := by
  simp only [handleCarneParcelas]
  repeat' split
  all_goals first
    | exact tame_getOrCreate ts
    | exact tame_trans (tame_getOrCreate ts) (tame_carneInvalidBranch _ _)
    | exact tame_trans (tame_getOrCreate ts)
        (tame_trans (tame_updatePackageData _ _ _) (tame_processPaymentCarne _ _ _))

/-- The whole dispatch table is tame: messaging effects belong to the
orchestrator alone. -/
theorem tame_determineResponse (env : Env) (s : SessionCtx) (m : String) (ts : TurnState) :
    TameStep ts (determineResponse env s m ts).1 := by
  simp only [determineResponse]
  split
  · exact tame_refl ts
  · exact tame_refl ts
  · exact tame_handleContractCpf env _ ts
  · exact tame_refl ts
  · exact tame_handleClassCode env _ ts
  · exact tame_handlePackageSelection env _ ts
  · exact tame_handleBillingCpf env _ ts
  · exact tame_handlePaymentMethodSelection env _ ts
  · exact tame_handleCarneParcelas env _ ts
  · exact tame_refl ts
  · exact tame_refl ts
  · exact tame_refl ts

/-- C8 (amended): per-turn effect accounting of `processIncomingMessage`.
Starting from an empty trace, the final trace decomposes as the
orchestrator's send part (one gateway send, plus one outgoing log write
exactly when the send succeeded and the database was available; empty when
the transition returned null), then the orchestrator's single session
update (absent when the transition returned null), then the handler's own
effects `L` — none of which is a send or a message-log write, but which may
contain further session updates — then the inbound log write (present
exactly when the database was available).  In particular each turn has at
most one inbound log, at most one send and at most one outgoing log, but
NOT exactly one session update overall: handlers add their own. -/
theorem per_turn_effect_counts (env : Env) (p : Payload) (st : Store) :
    ∃ L : List Eff, (∀ e ∈ L, effMessaging e = false) ∧
      (processIncomingMessage env p ⟨st, []⟩).1.trace =
        turnSendPart env st (processIncomingMessage env p ⟨st, []⟩).2 ++
          (turnUpdatePart (processIncomingMessage env p ⟨st, []⟩).2 ++
            (L ++ turnIncomingLog st p)) := by
  obtain ⟨hdb, hcache, L, hL, hLm⟩ :=
    tame_determineResponse env
      (getOrCreateSession (logIncomingMsg (msgContentOf p) ⟨st, []⟩)).1
      (msgContentOf p)
      (getOrCreateSession (logIncomingMsg (msgContentOf p) ⟨st, []⟩)).2
  refine ⟨L, hLm, ?_⟩
  have h1store : (logIncomingMsg (msgContentOf p) ⟨st, []⟩).store = st := by
    unfold logIncomingMsg; split <;> rfl
  have h1trace :
      (logIncomingMsg (msgContentOf p) ⟨st, []⟩).trace = turnIncomingLog st p := by
    unfold logIncomingMsg turnIncomingLog
    rcases h : st.dbAvailable with _ | _ <;> simp [h]
  simp only [processIncomingMessage, runTurn]
  split
  · -- transition returned none
    simp only [turnSendPart, turnUpdatePart, List.nil_append]
    rw [hL, getOrCreate_trace, h1trace]
  · -- transition returned some r
    rename_i r heq
    have hcr :
        (getOrCreateSession
          (determineResponse env
            (getOrCreateSession (logIncomingMsg (msgContentOf p) ⟨st, []⟩)).1
            (msgContentOf p)
            (getOrCreateSession (logIncomingMsg (msgContentOf p) ⟨st, []⟩)).2).1).2.trace
          = L ++ turnIncomingLog st p := by
      rw [getOrCreate_trace, hL, getOrCreate_trace, h1trace]
    have hts5db :
        (updateSession r.step (msgContentOf p)
          (getOrCreateSession
            (determineResponse env
              (getOrCreateSession (logIncomingMsg (msgContentOf p) ⟨st, []⟩)).1
              (msgContentOf p)
              (getOrCreateSession (logIncomingMsg (msgContentOf p) ⟨st, []⟩)).2).1).1.data
          (getOrCreateSession
            (determineResponse env
              (getOrCreateSession (logIncomingMsg (msgContentOf p) ⟨st, []⟩)).1
              (msgContentOf p)
              (getOrCreateSession (logIncomingMsg (msgContentOf p) ⟨st, []⟩)).2).1).2).store.dbAvailable
          = st.dbAvailable := by
      rw [updateSession_dbAvailable, getOrCreate_dbAvailable, hdb,
        getOrCreate_dbAvailable, h1store]
    have hts5trace :
        (updateSession r.step (msgContentOf p)
          (getOrCreateSession
            (determineResponse env
              (getOrCreateSession (logIncomingMsg (msgContentOf p) ⟨st, []⟩)).1
              (msgContentOf p)
              (getOrCreateSession (logIncomingMsg (msgContentOf p) ⟨st, []⟩)).2).1).1.data
          (getOrCreateSession
            (determineResponse env
              (getOrCreateSession (logIncomingMsg (msgContentOf p) ⟨st, []⟩)).1
              (msgContentOf p)
              (getOrCreateSession (logIncomingMsg (msgContentOf p) ⟨st, []⟩)).2).1).2).trace
          = Eff.sessionUpdate r.step :: (L ++ turnIncomingLog st p) := by
      rw [updateSession_trace, hcr]
    simp only [sendResponse, logOutgoingMsg, turnSendPart, turnUpdatePart]
    rcases hsend : env.sendOk with _ | _ <;>
      rcases hdbA : st.dbAvailable with _ | _ <;>
        simp [hsend, hdbA, hts5db, hts5trace]

/-- C8 counterexample to the literal claim: a failed cohort-code turn
produces a response (so the claim demands exactly one session update), yet
the trace holds two session updates — the handler's own retry-counter write
via `updateClienteData` plus the orchestrator's update. -/
theorem per_turn_single_update_cex :
    (processIncomingMessage envW pClass ⟨stClass, []⟩).2.isSome = true ∧
      List.countP isSessionUpdateE
        (processIncomingMessage envW pClass ⟨stClass, []⟩).1.trace = 2 := by
  decide

end ZapFlow
